import Mathlib

/-!
Verification of the content-scoring engine of `streamlit_app.py`
(YouTube video category analyzer: heartwarming / motivational / traumatic).

The Python source is shallowly embedded:
* Python strings are Lean `String` (a structure over `List Char`);
  Python's substring test `needle in hay` is `strIn`;
  `str.lower()` is `pylower`; `' '.join(xs)` is `join_comments`.
* Python floats are modelled as `ℚ` (all constants in the source are
  exact decimals).
* Python dicts with a fixed key set become structures; dict lookups that
  can raise `KeyError` are modelled with an association list and `dget`
  returning `Option`.
* Functions whose execution can raise (a `KeyError` lookup, or a division
  whose guard could fail) return `Option`; a raised exception is `none`.
  Division at a possibly-zero denominator goes through `divE`.
* The category registry `SPECIALIZED_CATEGORIES` keeps only the fields the
  engine reads (display-only fields `name`, `emoji`, `description` are
  omitted).
-/

/-! ## Python string primitives -/

/-- Does `hay` begin with `pre`? (char-list level). -/
def pyStartsWith : List Char → List Char → Bool
  | _, [] => true
  | [], _ :: _ => false
  | h :: hs, p :: ps => h == p && pyStartsWith hs ps

/-- Does `hay` contain `needle` as a contiguous substring? (char-list level). -/
def pyContains : List Char → List Char → Bool
  | [], needle => pyStartsWith [] needle
  | h :: hs, needle => pyStartsWith (h :: hs) needle || pyContains hs needle

/-- Models Python's `needle in hay` substring test on strings. -/
def strIn (needle hay : String) : Bool := pyContains hay.data needle.data

/-- Lowercase a list of characters. -/
def lowerData (l : List Char) : List Char := l.map Char.toLower

/-- Models Python's `str.lower()`. -/
def pylower (s : String) : String := ⟨lowerData s.data⟩

/-- Join char-lists with a single space, as Python's `' '.join`. -/
def joinSp : List (List Char) → List Char
  | [] => []
  | [c] => c
  | c :: c₂ :: rest => c ++ ' ' :: joinSp (c₂ :: rest)

/-- Models `' '.join(comments)`. -/
def join_comments (cs : List String) : String := ⟨joinSp (cs.map String.data)⟩

/-- Models `sum(1 for kw in kws if kw in text)`. -/
def countHits (kws : List String) (text : String) : ℕ :=
  (kws.filter (fun kw => strIn kw text)).length

/-- Association-list lookup, modelling a Python dict subscript that can
raise `KeyError` (hence `Option`). -/
def dget {α : Type} (d : List (String × α)) (k : String) : Option α :=
  match d with
  | [] => none
  | (k', v) :: rest => if k' == k then some v else dget rest k

/-- Division that models Python's `/`: `none` is a `ZeroDivisionError`. -/
def divE (a b : ℚ) : Option ℚ := if b = 0 then none else some (a / b)

/-! ## Data model -/

/-- The `sentiment_analysis` dict built by `fetch_enhanced_comments`. -/
structure Sentiment where
  positive : ℕ
  negative : ℕ
  neutral : ℕ
  total : ℕ
  emotional_intensity : ℚ
  deriving Repr, DecidableEq

/-- The transcript dict (`available`, `text`; segments are not read by the
scoring core). -/
structure TranscriptData where
  available : Bool
  text : String
  deriving Repr, DecidableEq

/-- The `color_profile` sub-dict of a thumbnail analysis. -/
structure ColorProfile where
  red_dominant : Bool
  warm_tones : Bool
  cold_tones : Bool
  deriving Repr, DecidableEq

/-- The thumbnail analysis dict. -/
structure ThumbnailAnalysis where
  available : Bool
  brightness : ℚ
  contrast : ℚ
  color_profile : ColorProfile
  deriving Repr, DecidableEq

/-- The `channel_info` dict. -/
structure ChannelInfo where
  subscriber_count : ℕ
  video_count : ℕ
  description : String
  deriving Repr, DecidableEq

/-- The comprehensive video data record assembled by
`fetch_comprehensive_data` and consumed by the scoring core. -/
structure VideoData where
  title : String
  description : String
  viewCount : ℕ
  likeCount : ℕ
  commentCount : ℕ
  comments : List String
  comment_sentiment : Sentiment
  transcript : TranscriptData
  channel_info : ChannelInfo
  thumbnail_analysis : ThumbnailAnalysis
  deriving Repr, DecidableEq

/-- The `all_text` dict built at the top of `comprehensive_category_analysis`. -/
structure AllText where
  title : String
  description : String
  comments : String
  transcript : String
  channel_desc : String
  deriving Repr, DecidableEq

/-- One category's definition table (keyword sets); the engine reads these
four fields.  `authenticity_signals` is kept as an association list because
`get_category_indicators` subscripts it with a key (`'staged_warnings'`)
that not every category defines. -/
structure CategoryData where
  authenticity_signals : List (String × List String)
  content_types : List (String × List String)
  viewer_emotions : List (String × List String)
  speech_patterns : List (String × List String)
  deriving Repr, DecidableEq

/-! ## The category registry (`SPECIALIZED_CATEGORIES`) -/

/-- The `'heartwarming_content'` entry of `SPECIALIZED_CATEGORIES`. -/
def heartwarmingCat : CategoryData where
  authenticity_signals :=
    [("genuine", ["spontaneous", "unexpected", "real reaction", "candid", "unscripted", "natural"]),
     ("staged_warnings", ["sponsored", "ad", "promotional", "fake", "acting", "scripted", "setup"])]
  content_types :=
    [("reunions", ["reunion", "homecoming", "surprise visit", "long distance", "deployed", "military"]),
     ("acts_of_kindness", ["helped", "donated", "volunteer", "charity", "generous", "gave", "sacrifice"]),
     ("life_events", ["proposal", "wedding", "birth", "adoption", "graduation", "achievement"]),
     ("rescues", ["rescue", "saved", "found", "lost pet", "missing", "search"])]
  viewer_emotions :=
    [("strong", ["crying", "sobbing", "bawling", "tears streaming", "ugly crying", "emotional wreck"]),
     ("moderate", ["tears", "emotional", "touched", "moved", "feels", "heart melting"]),
     ("positive", ["happy tears", "joy", "beautiful", "sweet", "precious", "wholesome", "pure"])]
  speech_patterns :=
    [("emotional_speech", ["voice cracking", "choking up", "speechless", "overwhelmed"]),
     ("positive_words", ["thank you", "grateful", "blessed", "amazing", "incredible", "beautiful"]),
     ("family_language", ["mom", "dad", "family", "love you", "missed you", "proud of you"])]

/-- The `'motivational_content'` entry of `SPECIALIZED_CATEGORIES`. -/
def motivationalCat : CategoryData where
  authenticity_signals :=
    [("genuine", ["documented journey", "progress over time", "struggle shown", "setbacks mentioned"]),
     ("staged_warnings", ["overnight success", "easy money", "secret trick", "one simple hack"])]
  content_types :=
    [("transformation", ["lost weight", "got fit", "changed life", "transformation", "before after"]),
     ("overcoming_adversity", ["overcame", "despite", "against odds", "disability", "poverty", "addiction"]),
     ("achievement", ["graduated", "promotion", "business success", "competition won", "record broken"]),
     ("perseverance", ["never gave up", "kept trying", "persistence", "dedication", "years of work"])]
  viewer_emotions :=
    [("inspired", ["motivated", "inspired", "pumped up", "ready to work", "fired up"]),
     ("impressed", ["incredible", "amazing", "unbelievable", "respect", "legend", "beast"]),
     ("relatable", ["needed this", "perfect timing", "exactly what I needed", "motivation"])]
  speech_patterns :=
    [("struggle_language", ["it was hard", "difficult times", "wanted to quit", "almost gave up"]),
     ("breakthrough_language", ["turning point", "everything changed", "breakthrough moment"]),
     ("advice_language", ["key is", "secret is", "most important thing", "advice", "lesson learned"])]

/-- The `'traumatic_events'` entry of `SPECIALIZED_CATEGORIES`.  Note its
warnings key is `'exploitative_warnings'`, not `'staged_warnings'`. -/
def traumaticCat : CategoryData where
  authenticity_signals :=
    [("genuine", ["breaking news", "live coverage", "witness account", "survivor story", "documentary"]),
     ("exploitative_warnings", ["clickbait", "dramatic music", "sensationalized", "views only"])]
  content_types :=
    [("natural_disasters", ["earthquake", "hurricane", "flood", "wildfire", "tsunami", "tornado"]),
     ("accidents", ["crash", "accident", "collision", "emergency", "rescue operation"]),
     ("personal_trauma", ["loss", "death", "injury", "diagnosis", "tragedy", "victim"]),
     ("social_events", ["protest", "conflict", "violence", "crisis", "emergency"])]
  viewer_emotions :=
    [("shock", ["shocked", "can\x27t believe", "unbelievable", "devastating", "horrific"]),
     ("empathy", ["prayers", "thoughts and prayers", "heart goes out", "so sorry"]),
     ("concern", ["hope everyone ok", "is everyone safe", "any updates", "what happened"])]
  speech_patterns :=
    [("breaking_news", ["breaking news", "just in", "developing story", "live coverage"]),
     ("witness_accounts", ["i saw", "i was there", "happened so fast", "couldn\x27t believe"]),
     ("official_statements", ["authorities confirm", "police report", "official statement"])]

/-- The registry `SPECIALIZED_CATEGORIES`, as an association list in the
source's insertion order. -/
def SPECIALIZED_CATEGORIES : List (String × CategoryData) :=
  [("heartwarming_content", heartwarmingCat),
   ("motivational_content", motivationalCat),
   ("traumatic_events", traumaticCat)]

/-! ## Sentiment classifier (`analyze_deep_sentiment`) -/

/-- Deep sentiment analysis for a single comment (source line 1439). -/
def analyze_deep_sentiment (comment_text : String) : String :=
  let comment_lower := pylower comment_text
  let very_positive := ["amazing", "incredible", "beautiful", "perfect", "love", "best",
                        "crying", "tears", "emotional", "touching", "moving"]
  let very_negative := ["terrible", "awful", "worst", "hate", "disgusting", "fake", "staged", "cringe"]
  let positive_words := ["good", "nice", "great", "cool", "sweet", "lovely", "happy", "joy", "smile", "fun"]
  let negative_words := ["bad", "not good", "boring", "meh", "okay", "whatever", "disappointed"]
  let very_pos_count := countHits very_positive comment_lower
  let very_neg_count := countHits very_negative comment_lower
  let pos_count := countHits positive_words comment_lower
  let neg_count := countHits negative_words comment_lower
  let total_positive := very_pos_count * 2 + pos_count
  let total_negative := very_neg_count * 2 + neg_count
  if total_positive > total_negative then "positive"
  else if total_negative > total_positive then "negative"
  else "neutral"

/-! ## Timestamp scanner

Models `re.findall(r'(?:at\s+)?(\d{1,2}):(\d{2})|(\d{1,2}):(\d{2})|(\d+:\d+)', s)`
followed by `':'.join(filter(None, match))` for each match tuple.  The second
alternative is identical to the first without the optional prefix, so it never
fires; the third fires when the leading digit run is longer than two digits or
the run after the colon is shorter than two digits. -/

/-- Python's `\d`. -/
def isDigitC (c : Char) : Bool := '0' ≤ c && c ≤ '9'

/-- Python's `\s` character class. -/
def isSpaceC (c : Char) : Bool :=
  c == ' ' || c == '\t' || c == '\n' || c == '\x0d' || c == '\x0b' || c == '\x0c'

/-- Match `(\d{1,2}):(\d{2})` at the head of `l`; on success return the
joined groups (`h:mm`) and the rest of the input. -/
def alt1core (l : List Char) : Option (List Char × List Char) :=
  let ds := l.takeWhile isDigitC
  let rest := l.dropWhile isDigitC
  if ds.length = 1 ∨ ds.length = 2 then
    match rest with
    | ':' :: r2 =>
      let ds2 := r2.takeWhile isDigitC
      let rest2 := r2.dropWhile isDigitC
      if 2 ≤ ds2.length then some (ds ++ ':' :: ds2.take 2, ds2.drop 2 ++ rest2)
      else none
    | _ => none
  else none

/-- Match `(\d+:\d+)` at the head of `l`. -/
def alt3core (l : List Char) : Option (List Char × List Char) :=
  let ds := l.takeWhile isDigitC
  let rest := l.dropWhile isDigitC
  if ds.isEmpty then none
  else
    match rest with
    | ':' :: r2 =>
      let ds2 := r2.takeWhile isDigitC
      let rest2 := r2.dropWhile isDigitC
      if ds2.isEmpty then none else some (ds ++ ':' :: ds2, rest2)
    | _ => none

/-- Try the whole alternation at one position: first alternative with the
optional `at\s+` prefix, then without it, then the `(\d+:\d+)` alternative. -/
def matchAtPos (l : List Char) : Option (List Char × List Char) :=
  let withAt : Option (List Char × List Char) :=
    match l with
    | 'a' :: 't' :: r =>
      let sp := r.takeWhile isSpaceC
      let r2 := r.dropWhile isSpaceC
      if sp.isEmpty then none else alt1core r2
    | _ => none
  (withAt.orElse fun _ => alt1core l).orElse fun _ => alt3core l

/-- Left-to-right non-overlapping scan, as `re.findall`; fuelled by the
input length (every match consumes at least one character). -/
def findTsAux : ℕ → List Char → List (List Char)
  | 0, _ => []
  | _ + 1, [] => []
  | n + 1, c :: rest =>
    match matchAtPos (c :: rest) with
    | some (g, rem) => g :: findTsAux n rem
    | none => findTsAux n rest

/-- All timestamp matches of a comment, in scan order. -/
def findTimestamps (s : String) : List String :=
  (findTsAux s.data.length s.data).map fun g => ⟨g⟩

/-! ## Moment extraction -/

/-- The `category_indicators` dict attached to a moment. -/
structure Indicators where
  content_types : List String
  emotions : List String
  authenticity : String
  deriving Repr, DecidableEq

/-- One timestamped moment. -/
structure Moment where
  timestamp : String
  comment : String
  relevance_score : ℚ
  sentiment : String
  category_indicators : Indicators
  deriving Repr, DecidableEq

/-- Category relevance of one (lowercased) comment (source line 1493). -/
def calculate_moment_relevance (comment_lower : String) (category_data : CategoryData) : ℚ :=
  let content_score : ℚ :=
    (category_data.content_types.map fun p =>
      let hits := countHits p.2 comment_lower
      if hits > 0 then (hits : ℚ) * 2.0 else 0).sum
  let emotion_score : ℚ :=
    (category_data.viewer_emotions.map fun p =>
      let hits := countHits p.2 comment_lower
      if p.1 == "strong" then (hits : ℚ) * 3.0
      else if p.1 == "moderate" then (hits : ℚ) * 2.0
      else (hits : ℚ) * 1.0).sum
  let context_words := ["this part", "here", "moment", "scene", "exactly", "perfect", "best part", "favorite"]
  let context_matches := countHits context_words comment_lower
  content_score + emotion_score + (context_matches : ℚ) * 1.5

/-- Specific indicators found in one comment (source line 1520).  The
`'staged_warnings'` subscript raises `KeyError` for the traumatic category
(whose key is `'exploitative_warnings'`), hence `Option`. -/
def get_category_indicators (comment_lower : String) (category_data : CategoryData) :
    Option Indicators := do
  let cts := (category_data.content_types.filter fun p =>
      ¬ (p.2.filter fun kw => strIn kw comment_lower).isEmpty).map Prod.fst
  let emos := (category_data.viewer_emotions.map fun p =>
      ((p.2.filter fun w => strIn w comment_lower).take 3)).flatten
  let genuine_signals ← dget category_data.authenticity_signals "genuine"
  let staged_warnings ← dget category_data.authenticity_signals "staged_warnings"
  pure { content_types := cts
         emotions := emos
         authenticity :=
           if genuine_signals.any fun s => strIn s comment_lower then "genuine"
           else if staged_warnings.any fun w => strIn w comment_lower then "questionable"
           else "unknown" }

/-- The per-comment accumulation loop of `extract_timestamped_moments`
(source lines 1472-1489), before the final sort. -/
def collect_moments (comments : List String) (category_key : String) :
    Option (List Moment) := do
  let category_data ← dget SPECIALIZED_CATEGORIES category_key
  let mss ← comments.mapM fun comment => do
    let comment_lower := pylower comment
    let timestamps := findTimestamps comment_lower
    if timestamps.isEmpty then pure ([] : List Moment)
    else
      let relevance_score := calculate_moment_relevance comment_lower category_data
      if relevance_score > 0 then
        timestamps.mapM fun ts => do
          let ind ← get_category_indicators comment_lower category_data
          pure { timestamp := ts
                 comment := comment
                 relevance_score := relevance_score
                 sentiment := analyze_deep_sentiment comment
                 category_indicators := ind }
      else pure []
  pure mss.flatten

/-- Stable insertion for a descending sort by `relevance_score`: a new
element goes after every earlier element whose score is strictly larger,
and before earlier-sorted elements with an equal score coming later in the
input. -/
def insM (x : Moment) : List Moment → List Moment
  | [] => [x]
  | h :: t => if h.relevance_score > x.relevance_score then h :: insM x t else x :: h :: t

/-- Models Python's stable `sorted(moments, key=lambda x: x['relevance_score'],
reverse=True)`. -/
def pysortDesc : List Moment → List Moment
  | [] => []
  | x :: t => insM x (pysortDesc t)

/-- `extract_timestamped_moments` (source line 1465): collect, then sort by
relevance descending (stably). -/
def extract_timestamped_moments (comments : List String) (category_key : String) :
    Option (List Moment) :=
  (collect_moments comments category_key).map pysortDesc

/-! ## Component assessors (heartwarming) -/

/-- Content authenticity (source line 54).  The `'staged_warnings'`
subscript is a fallible dict access. -/
def assess_authenticity (all_text : AllText) (category_data : CategoryData)
    (_content_type : String) : Option ℚ := do
  let genuine_signals ← dget category_data.authenticity_signals "genuine"
  let staged_warnings ← dget category_data.authenticity_signals "staged_warnings"
  let genuine_count := countHits genuine_signals all_text.comments
  let staged_count := (staged_warnings.filter fun w =>
      strIn w all_text.comments || strIn w all_text.title).length
  let score : ℚ := 0.5
  let score := if genuine_count > staged_count
    then score + min ((genuine_count : ℚ) * 0.15) 0.4 else score
  let score := if staged_count > 0
    then score - min ((staged_count : ℚ) * 0.2) 0.3 else score
  pure (max (min score 1.0) 0.0)

/-- Emotional impact on viewers (source line 72); divides by the comment
total when it is positive. -/
def assess_emotional_impact (all_text : AllText) (comment_sentiment : Sentiment)
    (_content_type : String) : Option ℚ := do
  let score : ℚ := 0.3
  let score ← if comment_sentiment.total > 0 then do
      let positive_ratio ←
        divE (comment_sentiment.positive : ℚ) (comment_sentiment.total : ℚ)
      let emotional_intensity := comment_sentiment.emotional_intensity
      pure (score + positive_ratio * 0.4 + min (emotional_intensity / 100) 0.3)
    else pure score
  let strong_emotions := ["crying", "tears", "emotional", "touching", "beautiful", "moving", "powerful"]
  let emotion_matches := countHits strong_emotions all_text.comments
  let score := if emotion_matches > 5 then score + 0.3
    else if emotion_matches > 2 then score + 0.2 else score
  pure (min score 1.0)

/-- Content-type match (source line 94). -/
def assess_content_type (all_text : AllText)
    (content_types : List (String × List String)) : ℚ :=
  let score : ℚ := 0.2
  let total_matches := (content_types.map fun p =>
    (p.2.filter fun kw =>
      strIn kw all_text.title || strIn kw all_text.description ||
      strIn kw all_text.comments).length).sum
  let score := if total_matches > 5 then score + 0.6
    else if total_matches > 2 then score + 0.4
    else if total_matches > 0 then score + 0.2 else score
  min score 1.0

/-- Viewer response quality (source line 112). -/
def assess_viewer_response (moments : List Moment) (comment_sentiment : Sentiment) : ℚ :=
  let score : ℚ := 0.3
  let score := if ¬ moments.isEmpty then
      let high_quality_moments := (moments.filter fun m => m.relevance_score ≥ 5.0).length
      if high_quality_moments ≥ 3 then score + 0.5
      else if high_quality_moments ≥ 1 then score + 0.3
      else if moments.length ≥ 3 then score + 0.2 else score
    else score
  let score := if comment_sentiment.total > 20 then score + 0.2 else score
  min score 1.0

/-- Visual warmth from the thumbnail (source line 130). -/
def assess_visual_warmth (thumbnail_analysis : ThumbnailAnalysis) : ℚ :=
  let score : ℚ := 0.5
  let score := if thumbnail_analysis.available && thumbnail_analysis.color_profile.warm_tones
    then score + 0.3 else score
  let score := if thumbnail_analysis.available && decide (thumbnail_analysis.brightness > 140)
    then score + 0.2 else score
  min score 1.0

/-- Speech content from the transcript (source line 142); an empty
transcript (falsy in Python) short-circuits to `0.5`. -/
def assess_speech_content (transcript_text : String)
    (speech_patterns : List (String × List String)) : ℚ :=
  if transcript_text == "" then 0.5
  else
    let score : ℚ := 0.4
    let score := score + (speech_patterns.map fun p =>
      let hits := countHits p.2 transcript_text
      if hits > 0 then min ((hits : ℚ) * 0.1) 0.2 else 0).sum
    min score 1.0

/-! ## Component assessors (motivational).

The source defines each of `assess_inspirational_impact`,
`assess_actionable_content`, `assess_transformation_evidence` and
`assess_motivation_response` twice; the second group (under the comment
`# Missing assessment functions`, just before `__main__`) shadows the
first at import time, so `analyze_motivational_content` calls the later
ones.  Both are embedded; the shadowed early versions carry their source
line numbers, the effective late versions are suffixed `_late`. -/

/-- Achievement authenticity (source line 157). -/
def assess_achievement_authenticity (all_text : AllText) (_category_data : CategoryData) : ℚ :=
  let score : ℚ := 0.4
  let genuine_markers := ["years of work", "finally", "after struggling", "breakthrough", "earned it"]
  let fake_markers := ["overnight success", "easy money", "secret", "hack", "simple trick"]
  let genuine_count := (genuine_markers.filter fun m =>
      strIn m all_text.comments || strIn m all_text.description).length
  let fake_count := (fake_markers.filter fun m =>
      strIn m all_text.title || strIn m all_text.description).length
  let score := if genuine_count > 0 then score + min ((genuine_count : ℚ) * 0.2) 0.4 else score
  let score := if fake_count > 0 then score - min ((fake_count : ℚ) * 0.3) 0.6 else score
  max (min score 1.0) 0.0

/-- Struggle-to-success narrative (source line 175). -/
def assess_struggle_narrative (all_text : AllText) (transcript_data : TranscriptData) : ℚ :=
  let score : ℚ := 0.3
  let struggle_words := ["difficult", "hard", "struggle", "challenge", "obstacle", "setback", "failure"]
  let success_words := ["overcame", "achieved", "breakthrough", "success", "accomplished", "made it"]
  let text_content := all_text.comments ++ " " ++ all_text.description
  let text_content := if transcript_data.available
    then text_content ++ " " ++ all_text.transcript else text_content
  let struggle_mentions := countHits struggle_words text_content
  let success_mentions := countHits success_words text_content
  let score := if struggle_mentions > 0 ∧ success_mentions > 0 then score + 0.5
    else if success_mentions > 0 then score + 0.2 else score
  min score 1.0

/-- Inspirational impact, early shadowed version (source line 196). -/
def assess_inspirational_impact (all_text : AllText) (comment_sentiment : Sentiment) :
    Option ℚ := do
  let score : ℚ := 0.3
  let score ← if comment_sentiment.total > 0 then do
      let positive_ratio ←
        divE (comment_sentiment.positive : ℚ) (comment_sentiment.total : ℚ)
      pure (score + positive_ratio * 0.4)
    else pure score
  let motivational_responses := ["motivated", "inspired", "pumped", "ready to work", "fire", "beast"]
  let response_count := countHits motivational_responses all_text.comments
  let score := if response_count > 3 then score + 0.3
    else if response_count > 0 then score + 0.2 else score
  pure (min score 1.0)

/-- Actionable advice, early shadowed version (source line 214). -/
def assess_actionable_content (transcript_text : String) (_category_data : CategoryData) : ℚ :=
  if transcript_text == "" then 0.5
  else
    let score : ℚ := 0.4
    let actionable_phrases := ["here\x27s how", "step one", "key is", "important to", "you need to", "advice"]
    let hits := countHits actionable_phrases transcript_text
    let score := if hits > 3 then score + 0.4
      else if hits > 0 then score + 0.2 else score
    min score 1.0

/-- Transformation evidence, early shadowed version (source line 231);
divides by `viewCount` when it is positive. -/
def assess_transformation_evidence (all_text : AllText) (data : VideoData) : Option ℚ := do
  let score : ℚ := 0.4
  let evidence_words := ["before and after", "transformation", "changed my life", "different person", "journey"]
  let hits := (evidence_words.filter fun w =>
      strIn w all_text.title || strIn w all_text.description).length
  let score := if hits > 0 then score + 0.3 else score
  let score ← if data.viewCount > 0 then do
      let engagement_rate ←
        divE ((data.likeCount : ℚ) + (data.commentCount : ℚ)) (data.viewCount : ℚ)
      pure (if engagement_rate > 0.05 then score + 0.3 else score)
    else pure score
  pure (min score 1.0)

/-- Viewer motivation, early shadowed version (source line 249). -/
def assess_motivation_response (moments : List Moment) (_comment_sentiment : Sentiment) : ℚ :=
  let score : ℚ := 0.3
  let motivated_moments := moments.filter fun m =>
    ["motivated", "inspired", "pumped", "ready"].any fun w => strIn w (pylower m.comment)
  let score := if motivated_moments.length ≥ 2 then score + 0.4
    else if motivated_moments.length ≥ 1 then score + 0.2 else score
  min score 1.0

/-- Inspirational impact, effective late version (source line 929). -/
def assess_inspirational_impact_late (all_text : AllText) (comment_sentiment : Sentiment) :
    Option ℚ := do
  let score : ℚ := 0.3
  let score ← if comment_sentiment.total > 0 then do
      let positive_ratio ←
        divE (comment_sentiment.positive : ℚ) (comment_sentiment.total : ℚ)
      pure (score + positive_ratio * 0.4)
    else pure score
  let motivational_words := ["motivated", "inspired", "pumped", "ready"]
  let hits := countHits motivational_words all_text.comments
  let score := score + min ((hits : ℚ) * 0.1) 0.3
  pure (min score 1.0)

/-- Actionable content, effective late version (source line 942). -/
def assess_actionable_content_late (transcript_text : String)
    (_category_data : CategoryData) : ℚ :=
  if transcript_text == "" then 0.5
  else
    let score : ℚ := 0.4
    let actionable_phrases := ["how to", "step", "key is", "important", "advice"]
    let hits := countHits actionable_phrases transcript_text
    let score := score + min ((hits : ℚ) * 0.1) 0.4
    min score 1.0

/-- Transformation evidence, effective late version (source line 954). -/
def assess_transformation_evidence_late (all_text : AllText) (_data : VideoData) : ℚ :=
  let score : ℚ := 0.4
  let evidence_words := ["transformation", "changed", "different", "journey", "progress"]
  let hits := (evidence_words.filter fun w =>
      strIn w all_text.title || strIn w all_text.description).length
  let score := score + min ((hits : ℚ) * 0.2) 0.4
  min score 1.0

/-- Motivation response, effective late version (source line 964). -/
def assess_motivation_response_late (moments : List Moment)
    (_comment_sentiment : Sentiment) : ℚ :=
  let score : ℚ := 0.3
  let motivated_moments := moments.filter fun m =>
    strIn "motivated" (pylower m.comment) || strIn "inspired" (pylower m.comment)
  let score := if motivated_moments.length > 0 then score + 0.4 else score
  min score 1.0

/-! ## Component assessors (traumatic) -/

/-- Event severity (source line 263). -/
def assess_event_severity (all_text : AllText) (category_data : CategoryData) : ℚ :=
  let score : ℚ := 0.2
  let score := score + (category_data.content_types.map fun p =>
    let hits := (p.2.filter fun kw =>
        strIn kw all_text.title || strIn kw all_text.description).length
    if hits > 0 then (hits : ℚ) * 0.2 else 0).sum
  min score 1.0

/-- Responsible presentation (source line 276). -/
def assess_responsible_presentation (all_text : AllText) (_data : VideoData) : ℚ :=
  let score : ℚ := 0.5
  let responsible_indicators := ["awareness", "education", "prevention", "help", "support", "resources"]
  let exploitative_indicators := ["shocking", "insane", "crazy", "unbelievable", "viral", "dramatic"]
  let responsible_count := countHits responsible_indicators all_text.description
  let exploitative_count := countHits exploitative_indicators all_text.title
  let score := if responsible_count > exploitative_count then score + 0.3
    else if exploitative_count > responsible_count then score - 0.4 else score
  max (min score 1.0) 0.0

/-- Trauma authenticity (source line 293); reads the
`'exploitative_warnings'` key. -/
def assess_trauma_authenticity (all_text : AllText) (category_data : CategoryData) :
    Option ℚ := do
  let genuine_signals ← dget category_data.authenticity_signals "genuine"
  let exploitative_signals ← dget category_data.authenticity_signals "exploitative_warnings"
  let genuine_count := (genuine_signals.filter fun s =>
      strIn s all_text.title || strIn s all_text.description).length
  let exploitative_count := countHits exploitative_signals all_text.title
  let score : ℚ := 0.5
  let score := if genuine_count > 0 then score + min ((genuine_count : ℚ) * 0.2) 0.4 else score
  let score := if exploitative_count > 0 then score - min ((exploitative_count : ℚ) * 0.3) 0.5 else score
  pure (max (min score 1.0) 0.0)

/-- Educational value (source line 310). -/
def assess_educational_value (all_text : AllText) (transcript_data : TranscriptData) : ℚ :=
  let score : ℚ := 0.3
  let educational_indicators := ["learn", "understand", "awareness", "prevention", "important to know", "education"]
  let text_to_check := all_text.description
  let text_to_check := if transcript_data.available
    then text_to_check ++ " " ++ all_text.transcript else text_to_check
  let hits := countHits educational_indicators text_to_check
  let score := if hits > 0 then score + min ((hits : ℚ) * 0.2) 0.5 else score
  min score 1.0

/-- Viewer impact of traumatic content (source line 326). -/
def assess_trauma_impact (moments : List Moment) (comment_sentiment : Sentiment) : ℚ :=
  let score : ℚ := 0.4
  let score := if comment_sentiment.total > 0 then
      let serious_responses := ["prayers", "thoughts", "hope", "sad", "tragic", "terrible"]
      let comment_text := pylower (join_comments (moments.map Moment.comment))
      let serious_count := countHits serious_responses comment_text
      if serious_count > 2 then score + 0.4
      else if serious_count > 0 then score + 0.2 else score
    else score
  min score 1.0

/-- Source credibility (source line 343). -/
def assess_source_credibility (channel_info : ChannelInfo) (_all_text : AllText) : ℚ :=
  let score : ℚ := 0.5
  let credible_indicators := ["news", "media", "journalist", "reporter", "official"]
  let channel_desc := pylower channel_info.description
  let score := if credible_indicators.any fun i => strIn i channel_desc
    then score + 0.3 else score
  let score := if channel_info.subscriber_count > 100000 then score + 0.2 else score
  min score 1.0

/-! ## Per-category component records (the `components` dicts) -/

/-- Components of the heartwarming analysis. -/
structure HeartwarmingComponents where
  authenticity : ℚ
  emotional_impact : ℚ
  content_type_match : ℚ
  viewer_response : ℚ
  visual_warmth : ℚ
  speech_analysis : ℚ
  deriving Repr, DecidableEq

/-- Components of the motivational analysis. -/
structure MotivationalComponents where
  achievement_authenticity : ℚ
  struggle_to_success : ℚ
  inspirational_impact : ℚ
  actionable_value : ℚ
  transformation_evidence : ℚ
  viewer_motivation : ℚ
  deriving Repr, DecidableEq

/-- Components of the traumatic analysis. -/
structure TraumaticComponents where
  event_severity : ℚ
  responsible_handling : ℚ
  authenticity : ℚ
  educational_value : ℚ
  viewer_impact : ℚ
  source_credibility : ℚ
  deriving Repr, DecidableEq

/-! ## Confidence estimators -/

/-- Confidence for the heartwarming analysis (source line 361). -/
def calculate_heartwarming_confidence (data : VideoData)
    (components : HeartwarmingComponents) (moments : List Moment) : ℚ :=
  let confidence : ℚ := 0.3
  let confidence := if data.comments.length > 20 then confidence + 0.25 else confidence
  let confidence := if data.transcript.available then confidence + 0.2 else confidence
  let confidence := if moments.length > 0 then confidence + 0.15 else confidence
  let confidence := if components.authenticity > 0.6 then confidence + 0.1 else confidence
  min confidence 1.0

/-- Confidence for the motivational analysis (source line 376). -/
def calculate_motivational_confidence (data : VideoData)
    (components : MotivationalComponents) (moments : List Moment) : ℚ :=
  let confidence : ℚ := 0.2
  let confidence := if data.comments.length > 30 then confidence + 0.3 else confidence
  let confidence := if data.transcript.available then confidence + 0.25 else confidence
  let confidence := if components.achievement_authenticity > 0.5 then confidence + 0.15 else confidence
  let confidence := if moments.length > 0 then confidence + 0.1 else confidence
  min confidence 1.0

/-- Confidence for the trauma analysis (source line 391). -/
def calculate_trauma_confidence (data : VideoData)
    (components : TraumaticComponents) (moments : List Moment) : ℚ :=
  let confidence : ℚ := 0.4
  let confidence := if data.channel_info.subscriber_count > 50000 then confidence + 0.2 else confidence
  let confidence := if components.source_credibility > 0.7 then confidence + 0.2 else confidence
  let confidence := if data.comments.length > 10 then confidence + 0.15 else confidence
  let confidence := if components.responsible_handling > 0.6 then confidence + 0.05 else confidence
  min confidence 1.0

/-! ## Key-indicator extraction -/

/-- Heartwarming indicators (source line 407): up to two keywords per
content type, at most six overall. -/
def extract_heartwarming_indicators (all_text : AllText)
    (category_data : CategoryData) : List String :=
  ((category_data.content_types.map fun p =>
    (p.2.filter fun kw =>
      strIn kw all_text.comments || strIn kw all_text.title).take 2).flatten).take 6

/-- Motivational indicators (source line 418). -/
def extract_motivational_indicators (all_text : AllText)
    (category_data : CategoryData) : List String :=
  ((category_data.content_types.map fun p =>
    (p.2.filter fun kw =>
      strIn kw all_text.comments || strIn kw all_text.title).take 2).flatten).take 6

/-- Trauma indicators (source line 429): searched in title/description. -/
def extract_trauma_indicators (all_text : AllText)
    (category_data : CategoryData) : List String :=
  ((category_data.content_types.map fun p =>
    (p.2.filter fun kw =>
      strIn kw all_text.title || strIn kw all_text.description).take 2).flatten).take 6

/-! ## Score aggregation (the arithmetic tails of the `analyze_*` functions) -/

/-- Heartwarming weighted score before the moment bonus (source lines
1606-1622): base 3.0, scale 7.0, gating penalty ×0.7 when
`authenticity < 0.4`. -/
def heartwarming_prebonus (components : HeartwarmingComponents) : ℚ :=
  let base_score : ℚ := 3.0
  let component_contribution :=
    (components.authenticity * 0.25 + components.emotional_impact * 0.25 +
     components.content_type_match * 0.20 + components.viewer_response * 0.15 +
     components.visual_warmth * 0.08 + components.speech_analysis * 0.07) * 7.0
  let final_score := base_score + component_contribution
  if components.authenticity < 0.4 then final_score * 0.7 else final_score

/-- Heartwarming final score before the upper clamp (source lines
1616-1627): the strong-moment bonus adds 0.8 when at least two moments
have relevance ≥ 5.0. -/
def heartwarming_final (components : HeartwarmingComponents) (moments : List Moment) : ℚ :=
  let high_quality_moments := (moments.filter fun m => m.relevance_score ≥ 5.0).length
  if high_quality_moments ≥ 2 then heartwarming_prebonus components + 0.8
  else heartwarming_prebonus components

/-- Motivational weighted score before bonus and penalty (source lines
1661-1663): base 2.0, scale 8.0. -/
def motivational_prebonus (components : MotivationalComponents) : ℚ :=
  let base_score : ℚ := 2.0
  let component_contribution :=
    (components.achievement_authenticity * 0.25 + components.struggle_to_success * 0.20 +
     components.inspirational_impact * 0.20 + components.actionable_value * 0.15 +
     components.transformation_evidence * 0.12 + components.viewer_motivation * 0.08) * 8.0
  base_score + component_contribution

/-- Motivational final score before the upper clamp (source lines
1665-1670): +1.0 quality bonus gated on components, then ×0.6 penalty when
`achievement_authenticity < 0.3`. -/
def motivational_final (components : MotivationalComponents) : ℚ :=
  let final_score := motivational_prebonus components
  let final_score := if components.achievement_authenticity > 0.8 ∧
      components.struggle_to_success > 0.7 then final_score + 1.0 else final_score
  if components.achievement_authenticity < 0.3 then final_score * 0.6 else final_score

/-- Traumatic weighted score after the gating penalty (source lines 31-37):
base 1.0, scale 9.0, ×0.5 penalty when `responsible_handling < 0.5`. -/
def traumatic_prebonus (components : TraumaticComponents) : ℚ :=
  let base_score : ℚ := 1.0
  let component_contribution :=
    (components.event_severity * 0.25 + components.responsible_handling * 0.25 +
     components.authenticity * 0.20 + components.educational_value * 0.15 +
     components.viewer_impact * 0.10 + components.source_credibility * 0.05) * 9.0
  let final_score := base_score + component_contribution
  if components.responsible_handling < 0.5 then final_score * 0.5 else final_score

/-- Traumatic final score before the upper clamp (source lines 31-41):
+0.5 educational bonus gated on components. -/
def traumatic_final (components : TraumaticComponents) : ℚ :=
  if components.educational_value > 0.7 ∧ components.responsible_handling > 0.7
  then traumatic_prebonus components + 0.5
  else traumatic_prebonus components

/-! ## Category analyses -/

/-- Result of one category-specific analysis (`score` is the value of the
`'score'` key, already clamped above by `min(final_score, 10.0)`). -/
structure HeartwarmingResult where
  score : ℚ
  components : HeartwarmingComponents
  confidence : ℚ
  authenticity : String
  indicators : List String
  deriving Repr, DecidableEq

/-- Result of the motivational analysis. -/
structure MotivationalResult where
  score : ℚ
  components : MotivationalComponents
  confidence : ℚ
  authenticity : String
  indicators : List String
  deriving Repr, DecidableEq

/-- Result of the traumatic analysis. -/
structure TraumaticResult where
  score : ℚ
  components : TraumaticComponents
  confidence : ℚ
  handling_assessment : String
  indicators : List String
  deriving Repr, DecidableEq

/-- Specialized analysis for heartwarming content (source line 1593). -/
def analyze_heartwarming_content (all_text : AllText) (data : VideoData)
    (moments : List Moment) (category_data : CategoryData) :
    Option HeartwarmingResult := do
  let authenticity ← assess_authenticity all_text category_data "heartwarming"
  let emotional_impact ← assess_emotional_impact all_text data.comment_sentiment "heartwarming"
  let components : HeartwarmingComponents :=
    { authenticity := authenticity
      emotional_impact := emotional_impact
      content_type_match := assess_content_type all_text category_data.content_types
      viewer_response := assess_viewer_response moments data.comment_sentiment
      visual_warmth := assess_visual_warmth data.thumbnail_analysis
      speech_analysis := assess_speech_content all_text.transcript category_data.speech_patterns }
  pure { score := min (heartwarming_final components moments) 10.0
         components := components
         confidence := calculate_heartwarming_confidence data components moments
         authenticity :=
           if components.authenticity > 0.7 then "authentic"
           else if components.authenticity > 0.4 then "questionable"
           else "likely_staged"
         indicators := extract_heartwarming_indicators all_text category_data }

/-- Specialized analysis for motivational content (source line 1639); the
four shadowed assessors resolve to their `_late` redefinitions. -/
def analyze_motivational_content (all_text : AllText) (data : VideoData)
    (moments : List Moment) (category_data : CategoryData) :
    Option MotivationalResult := do
  let inspirational_impact ← assess_inspirational_impact_late all_text data.comment_sentiment
  let components : MotivationalComponents :=
    { achievement_authenticity := assess_achievement_authenticity all_text category_data
      struggle_to_success := assess_struggle_narrative all_text data.transcript
      inspirational_impact := inspirational_impact
      actionable_value := assess_actionable_content_late all_text.transcript category_data
      transformation_evidence := assess_transformation_evidence_late all_text data
      viewer_motivation := assess_motivation_response_late moments data.comment_sentiment }
  pure { score := min (motivational_final components) 10.0
         components := components
         confidence := calculate_motivational_confidence data components moments
         authenticity :=
           if components.achievement_authenticity > 0.7 then "authentic"
           else if components.achievement_authenticity > 0.4 then "questionable"
           else "likely_fake"
         indicators := extract_motivational_indicators all_text category_data }

/-- Specialized analysis for traumatic events (source line 9). -/
def analyze_traumatic_content (all_text : AllText) (data : VideoData)
    (moments : List Moment) (category_data : CategoryData) :
    Option TraumaticResult := do
  let authenticity ← assess_trauma_authenticity all_text category_data
  let components : TraumaticComponents :=
    { event_severity := assess_event_severity all_text category_data
      responsible_handling := assess_responsible_presentation all_text data
      authenticity := authenticity
      educational_value := assess_educational_value all_text data.transcript
      viewer_impact := assess_trauma_impact moments data.comment_sentiment
      source_credibility := assess_source_credibility data.channel_info all_text }
  pure { score := min (traumatic_final components) 10.0
         components := components
         confidence := calculate_trauma_confidence data components moments
         handling_assessment :=
           if components.responsible_handling > 0.7 then "responsible"
           else if components.responsible_handling > 0.4 then "questionable"
           else "exploitative"
         indicators := extract_trauma_indicators all_text category_data }

/-! ## Top-level comprehensive analysis -/

/-- The `data_sources` record of the comprehensive result. -/
structure DataSources where
  comments : ℕ
  transcript : Bool
  engagement_data : Bool
  thumbnail : Bool
  deriving Repr, DecidableEq

/-- The dict returned by `comprehensive_category_analysis`;
`component_scores` is the per-category components dict flattened to
key/value pairs. -/
structure ComprehensiveResult where
  final_score : ℚ
  component_scores : List (String × ℚ)
  confidence : ℚ
  timestamped_moments : List Moment
  authenticity_assessment : String
  key_indicators : List String
  data_sources : DataSources
  deriving Repr, DecidableEq

/-- The `all_text` construction at the top of
`comprehensive_category_analysis` (source lines 1557-1563). -/
def build_all_text (data : VideoData) : AllText :=
  { title := pylower data.title
    description := pylower data.description
    comments := pylower (join_comments data.comments)
    transcript := if data.transcript.available then pylower data.transcript.text else ""
    channel_desc := pylower data.channel_info.description }

/-- Comprehensive analysis tailored to a category (source line 1551).  The
registry subscript raises `KeyError` for an unknown key, so the source's
trailing `else` default is unreachable; it is kept for fidelity. -/
def comprehensive_category_analysis (data : VideoData) (category_key : String) :
    Option ComprehensiveResult := do
  let category_data ← dget SPECIALIZED_CATEGORIES category_key
  let all_text := build_all_text data
  let timestamped_moments ← extract_timestamped_moments data.comments category_key
  let data_sources : DataSources :=
    { comments := data.comments.length
      transcript := data.transcript.available
      engagement_data := data.viewCount > 0
      thumbnail := data.thumbnail_analysis.available }
  if category_key == "heartwarming_content" then
    let analysis ← analyze_heartwarming_content all_text data timestamped_moments category_data
    pure { final_score := analysis.score
           component_scores :=
             [("authenticity", analysis.components.authenticity),
              ("emotional_impact", analysis.components.emotional_impact),
              ("content_type_match", analysis.components.content_type_match),
              ("viewer_response", analysis.components.viewer_response),
              ("visual_warmth", analysis.components.visual_warmth),
              ("speech_analysis", analysis.components.speech_analysis)]
           confidence := analysis.confidence
           timestamped_moments := timestamped_moments
           authenticity_assessment := analysis.authenticity
           key_indicators := analysis.indicators
           data_sources := data_sources }
  else if category_key == "motivational_content" then
    let analysis ← analyze_motivational_content all_text data timestamped_moments category_data
    pure { final_score := analysis.score
           component_scores :=
             [("achievement_authenticity", analysis.components.achievement_authenticity),
              ("struggle_to_success", analysis.components.struggle_to_success),
              ("inspirational_impact", analysis.components.inspirational_impact),
              ("actionable_value", analysis.components.actionable_value),
              ("transformation_evidence", analysis.components.transformation_evidence),
              ("viewer_motivation", analysis.components.viewer_motivation)]
           confidence := analysis.confidence
           timestamped_moments := timestamped_moments
           authenticity_assessment := analysis.authenticity
           key_indicators := analysis.indicators
           data_sources := data_sources }
  else if category_key == "traumatic_events" then
    let analysis ← analyze_traumatic_content all_text data timestamped_moments category_data
    pure { final_score := analysis.score
           component_scores :=
             [("event_severity", analysis.components.event_severity),
              ("responsible_handling", analysis.components.responsible_handling),
              ("authenticity", analysis.components.authenticity),
              ("educational_value", analysis.components.educational_value),
              ("viewer_impact", analysis.components.viewer_impact),
              ("source_credibility", analysis.components.source_credibility)]
           confidence := analysis.confidence
           timestamped_moments := timestamped_moments
           -- the traumatic result has no 'authenticity' key; `.get` defaults
           authenticity_assessment := "unknown"
           key_indicators := analysis.indicators
           data_sources := data_sources }
  else
    pure { final_score := 5.0
           component_scores := []
           confidence := 0.5
           timestamped_moments := timestamped_moments
           authenticity_assessment := "unknown"
           key_indicators := []
           data_sources := data_sources }

/-! ## Generic bound helpers -/

/-- A `min · 1` of a nonnegative value lies in `[0, 1]`. -/
theorem min1_bounds {x : ℚ} (hx : 0 ≤ x) : 0 ≤ min x 1 ∧ min x 1 ≤ 1 :=
  ⟨le_min hx zero_le_one, min_le_right _ _⟩

/-- A double clamp `max (min · 1) 0` lies in `[0, 1]` unconditionally. -/
theorem clamp_bounds (x : ℚ) : 0 ≤ max (min x 1) 0 ∧ max (min x 1) 0 ≤ 1 :=
  ⟨le_max_right _ _, max_le (le_trans (min_le_right _ _) le_rfl) zero_le_one⟩

/-- An `if`-guarded nonnegative increment is monotone along an implication
of guards. -/
theorem ite_mono_of_imp {c₁ c₂ : Prop} [Decidable c₁] [Decidable c₂] {x : ℚ}
    (hx : 0 ≤ x) (h : c₁ → c₂) :
    (if c₁ then x else 0) ≤ (if c₂ then x else 0) := by
  split_ifs with h₁ h₂
  · exact le_rfl
  · exact absurd (h h₁) h₂
  · exact hx
  · exact le_rfl

/-- Bounds for `assess_content_type`. -/
theorem assess_content_type_bounds (a : AllText) (ct : List (String × List String)) :
    0 ≤ assess_content_type a ct ∧ assess_content_type a ct ≤ 1 := by
  rw [assess_content_type]
  constructor
  all_goals norm_num
  all_goals split_ifs <;> norm_num

/-- Bounds for `assess_viewer_response`. -/
theorem assess_viewer_response_bounds (ms : List Moment) (s : Sentiment) :
    0 ≤ assess_viewer_response ms s ∧ assess_viewer_response ms s ≤ 1 := by
  rw [assess_viewer_response]
  constructor
  all_goals norm_num
  all_goals split_ifs <;> norm_num

/-- Bounds for `assess_visual_warmth`. -/
theorem assess_visual_warmth_bounds (t : ThumbnailAnalysis) :
    0 ≤ assess_visual_warmth t ∧ assess_visual_warmth t ≤ 1 := by
  rw [assess_visual_warmth]
  constructor
  all_goals norm_num
  all_goals split_ifs <;> norm_num

/-- The per-pattern speech bonus sum is nonnegative. -/
theorem speech_sum_nonneg (tt : String) (sp : List (String × List String)) :
    0 ≤ (sp.map fun p =>
      if countHits p.2 tt > 0 then min ((countHits p.2 tt : ℚ) * 0.1) 0.2 else (0 : ℚ)).sum := by
  apply List.sum_nonneg
  intro x hx
  simp only [List.mem_map] at hx
  obtain ⟨p, _, rfl⟩ := hx
  split_ifs
  · exact le_min (by positivity) (by norm_num)
  · exact le_rfl

/-- Bounds for `assess_speech_content`. -/
theorem assess_speech_content_bounds (tt : String) (sp : List (String × List String)) :
    0 ≤ assess_speech_content tt sp ∧ assess_speech_content tt sp ≤ 1 := by
  rw [assess_speech_content]
  have hsum := speech_sum_nonneg tt sp
  split_ifs
  · norm_num
  · constructor
    · exact le_min (by linarith) (by norm_num)
    · exact min_le_of_right_le (by norm_num)

/-- Bounds for `assess_achievement_authenticity`. -/
theorem assess_achievement_authenticity_bounds (a : AllText) (cd : CategoryData) :
    0 ≤ assess_achievement_authenticity a cd ∧ assess_achievement_authenticity a cd ≤ 1 := by
  rw [assess_achievement_authenticity]
  constructor
  all_goals norm_num
  all_goals split_ifs <;> norm_num

/-- Bounds for `assess_struggle_narrative`. -/
theorem assess_struggle_narrative_bounds (a : AllText) (td : TranscriptData) :
    0 ≤ assess_struggle_narrative a td ∧ assess_struggle_narrative a td ≤ 1 := by
  rw [assess_struggle_narrative]
  constructor
  all_goals norm_num
  all_goals split_ifs <;> norm_num

/-- Bounds for `assess_actionable_content` (early version). -/
theorem assess_actionable_content_bounds (tt : String) (cd : CategoryData) :
    0 ≤ assess_actionable_content tt cd ∧ assess_actionable_content tt cd ≤ 1 := by
  rw [assess_actionable_content]
  constructor
  all_goals norm_num
  all_goals split_ifs <;> norm_num

/-- Bounds for `assess_actionable_content_late`. -/
theorem assess_actionable_content_late_bounds (tt : String) (cd : CategoryData) :
    0 ≤ assess_actionable_content_late tt cd ∧ assess_actionable_content_late tt cd ≤ 1 := by
  rw [assess_actionable_content_late]
  split_ifs
  · norm_num
  · constructor
    · refine le_min ?_ (by norm_num)
      have : (0:ℚ) ≤ min ((countHits ["how to", "step", "key is", "important", "advice"] tt : ℚ) * 0.1) 0.4 :=
        le_min (by positivity) (by norm_num)
      linarith
    · exact min_le_of_right_le (by norm_num)

/-- Bounds for `assess_transformation_evidence_late`. -/
theorem assess_transformation_evidence_late_bounds (a : AllText) (d : VideoData) :
    0 ≤ assess_transformation_evidence_late a d ∧ assess_transformation_evidence_late a d ≤ 1 := by
  rw [assess_transformation_evidence_late]
  constructor
  · refine le_min ?_ (by norm_num)
    have : (0:ℚ) ≤ min (((["transformation", "changed", "different", "journey", "progress"].filter fun w =>
        strIn w a.title || strIn w a.description).length : ℚ) * 0.2) 0.4 :=
      le_min (by positivity) (by norm_num)
    linarith
  · exact min_le_of_right_le (by norm_num)

/-- Bounds for `assess_motivation_response` (early version). -/
theorem assess_motivation_response_bounds (ms : List Moment) (s : Sentiment) :
    0 ≤ assess_motivation_response ms s ∧ assess_motivation_response ms s ≤ 1 := by
  rw [assess_motivation_response]
  constructor
  all_goals norm_num
  all_goals split_ifs <;> norm_num

/-- Bounds for `assess_motivation_response_late`. -/
theorem assess_motivation_response_late_bounds (ms : List Moment) (s : Sentiment) :
    0 ≤ assess_motivation_response_late ms s ∧ assess_motivation_response_late ms s ≤ 1 := by
  rw [assess_motivation_response_late]
  constructor
  all_goals norm_num
  all_goals split_ifs <;> norm_num

/-- Bounds for `assess_responsible_presentation`. -/
theorem assess_responsible_presentation_bounds (a : AllText) (d : VideoData) :
    0 ≤ assess_responsible_presentation a d ∧ assess_responsible_presentation a d ≤ 1 := by
  rw [assess_responsible_presentation]
  constructor
  all_goals norm_num
  all_goals split_ifs <;> norm_num

/-- Bounds for `assess_educational_value`. -/
theorem assess_educational_value_bounds (a : AllText) (td : TranscriptData) :
    0 ≤ assess_educational_value a td ∧ assess_educational_value a td ≤ 1 := by
  rw [assess_educational_value]
  constructor
  all_goals norm_num
  all_goals split_ifs
  all_goals try norm_num
  all_goals exact add_nonneg (by norm_num) (le_min (by positivity) (by norm_num))

/-- Bounds for `assess_trauma_impact`. -/
theorem assess_trauma_impact_bounds (ms : List Moment) (s : Sentiment) :
    0 ≤ assess_trauma_impact ms s ∧ assess_trauma_impact ms s ≤ 1 := by
  rw [assess_trauma_impact]
  constructor
  all_goals norm_num
  all_goals split_ifs <;> norm_num

/-- Bounds for `assess_source_credibility`. -/
theorem assess_source_credibility_bounds (ci : ChannelInfo) (a : AllText) :
    0 ≤ assess_source_credibility ci a ∧ assess_source_credibility ci a ≤ 1 := by
  rw [assess_source_credibility]
  constructor
  all_goals norm_num
  all_goals split_ifs <;> norm_num

/-- Bounds for `assess_event_severity`. -/
theorem assess_event_severity_bounds (a : AllText) (cd : CategoryData) :
    0 ≤ assess_event_severity a cd ∧ assess_event_severity a cd ≤ 1 := by
  rw [assess_event_severity]
  refine ⟨le_min (add_nonneg (by norm_num) (List.sum_nonneg ?_)) (by norm_num),
          min_le_of_right_le (by norm_num)⟩
  intro x hx
  simp only [List.mem_map] at hx
  obtain ⟨p, _, rfl⟩ := hx
  split_ifs
  · positivity
  · exact le_rfl

/-- Totality and bounds for `assess_authenticity`: whenever the dict
lookups succeed the returned value is clamped to `[0, 1]`. -/
theorem assess_authenticity_bounds (a : AllText) (cd : CategoryData) (ct : String) (v : ℚ)
    (hv : assess_authenticity a cd ct = some v) : 0 ≤ v ∧ v ≤ 1 := by
  rw [assess_authenticity] at hv
  cases hg : dget cd.authenticity_signals "genuine" with
  | none => rw [hg] at hv; simp at hv
  | some gs =>
    cases hs : dget cd.authenticity_signals "staged_warnings" with
    | none => rw [hg, hs] at hv; simp at hv
    | some sw =>
      rw [hg, hs] at hv
      simp only [bind, Option.bind, Option.pure_def, Option.some.injEq] at hv
      subst hv
      constructor
      · exact le_max_of_le_right (by norm_num)
      · exact max_le (min_le_of_right_le (by norm_num)) (by norm_num)

/-- Totality and bounds for `assess_trauma_authenticity`. -/
theorem assess_trauma_authenticity_bounds (a : AllText) (cd : CategoryData) (v : ℚ)
    (hv : assess_trauma_authenticity a cd = some v) : 0 ≤ v ∧ v ≤ 1 := by
  rw [assess_trauma_authenticity] at hv
  cases hg : dget cd.authenticity_signals "genuine" with
  | none => rw [hg] at hv; simp at hv
  | some gs =>
    cases hs : dget cd.authenticity_signals "exploitative_warnings" with
    | none => rw [hg, hs] at hv; simp at hv
    | some sw =>
      rw [hg, hs] at hv
      simp only [bind, Option.bind, Option.pure_def, Option.some.injEq] at hv
      subst hv
      constructor
      · exact le_max_of_le_right (by norm_num)
      · exact max_le (min_le_of_right_le (by norm_num)) (by norm_num)

/-- Totality and bounds for `assess_emotional_impact`: for nonnegative
emotional intensity it always returns a value in `[0, 1]` (the division is
guarded by `total > 0`). -/
theorem assess_emotional_impact_total (a : AllText) (s : Sentiment) (ct : String)
    (hI : 0 ≤ s.emotional_intensity) :
    ∃ v, assess_emotional_impact a s ct = some v ∧ 0 ≤ v ∧ v ≤ 1 := by
  rw [assess_emotional_impact]
  have h2 : 0 ≤ min (s.emotional_intensity / 100) 0.3 :=
    le_min (div_nonneg hI (by norm_num)) (by norm_num)
  by_cases ht : s.total > 0
  · have htQ : ((s.total : ℚ)) ≠ 0 := (Nat.cast_pos.mpr ht).ne'
    have h1 : 0 ≤ (s.positive : ℚ) / (s.total : ℚ) * 0.4 := by positivity
    simp only [if_pos ht, divE, if_neg htQ, bind, Option.bind, Option.pure_def]
    refine ⟨_, rfl, ?_, ?_⟩
    · split_ifs <;> refine le_min ?_ (by norm_num) <;> linarith
    · split_ifs <;> exact min_le_of_right_le (by norm_num)
  · simp only [if_neg ht, bind, Option.bind, Option.pure_def]
    refine ⟨_, rfl, ?_, ?_⟩
    · split_ifs <;> refine le_min ?_ (by norm_num) <;> linarith
    · split_ifs <;> exact min_le_of_right_le (by norm_num)

/-- Totality and bounds for the shadowed `assess_inspirational_impact`. -/
theorem assess_inspirational_impact_total (a : AllText) (s : Sentiment) :
    ∃ v, assess_inspirational_impact a s = some v ∧ 0 ≤ v ∧ v ≤ 1 := by
  rw [assess_inspirational_impact]
  by_cases ht : s.total > 0
  · have htQ : ((s.total : ℚ)) ≠ 0 := (Nat.cast_pos.mpr ht).ne'
    have h1 : 0 ≤ (s.positive : ℚ) / (s.total : ℚ) * 0.4 := by positivity
    simp only [if_pos ht, divE, if_neg htQ, bind, Option.bind, Option.pure_def]
    refine ⟨_, rfl, ?_, ?_⟩
    · split_ifs <;> refine le_min ?_ (by norm_num) <;> linarith
    · split_ifs <;> exact min_le_of_right_le (by norm_num)
  · simp only [if_neg ht, bind, Option.bind, Option.pure_def]
    refine ⟨_, rfl, ?_, ?_⟩
    · split_ifs <;> refine le_min ?_ (by norm_num) <;> linarith
    · split_ifs <;> exact min_le_of_right_le (by norm_num)

/-- Totality and bounds for `assess_inspirational_impact_late`. -/
theorem assess_inspirational_impact_late_total (a : AllText) (s : Sentiment) :
    ∃ v, assess_inspirational_impact_late a s = some v ∧ 0 ≤ v ∧ v ≤ 1 := by
  rw [assess_inspirational_impact_late]
  have h2 : 0 ≤ min ((countHits ["motivated", "inspired", "pumped", "ready"] a.comments : ℚ) * 0.1) 0.3 :=
    le_min (by positivity) (by norm_num)
  by_cases ht : s.total > 0
  · have htQ : ((s.total : ℚ)) ≠ 0 := (Nat.cast_pos.mpr ht).ne'
    have h1 : 0 ≤ (s.positive : ℚ) / (s.total : ℚ) * 0.4 := by positivity
    simp only [if_pos ht, divE, if_neg htQ, bind, Option.bind, Option.pure_def]
    exact ⟨_, rfl, le_min (by linarith) (by norm_num), min_le_of_right_le (by norm_num)⟩
  · simp only [if_neg ht, bind, Option.bind, Option.pure_def]
    exact ⟨_, rfl, le_min (by linarith) (by norm_num), min_le_of_right_le (by norm_num)⟩

/-- Totality and bounds for the shadowed `assess_transformation_evidence`
(the division by `viewCount` is guarded by `viewCount > 0`). -/
theorem assess_transformation_evidence_total (a : AllText) (d : VideoData) :
    ∃ v, assess_transformation_evidence a d = some v ∧ 0 ≤ v ∧ v ≤ 1 := by
  rw [assess_transformation_evidence]
  by_cases hw : d.viewCount > 0
  · have hwQ : ((d.viewCount : ℚ)) ≠ 0 := (Nat.cast_pos.mpr hw).ne'
    simp only [if_pos hw, divE, if_neg hwQ, bind, Option.bind, Option.pure_def]
    refine ⟨_, rfl, ?_, ?_⟩
    · split_ifs <;> refine le_min ?_ (by norm_num) <;> linarith
    · split_ifs <;> exact min_le_of_right_le (by norm_num)
  · simp only [if_neg hw, bind, Option.bind, Option.pure_def]
    refine ⟨_, rfl, ?_, ?_⟩
    · split_ifs <;> refine le_min ?_ (by norm_num) <;> linarith
    · split_ifs <;> exact min_le_of_right_le (by norm_num)

/-- The heartwarming final score is nonnegative whenever all components
are (before the upper clamp). -/
theorem heartwarming_final_nonneg (cs : HeartwarmingComponents) (ms : List Moment)
    (h1 : 0 ≤ cs.authenticity) (h2 : 0 ≤ cs.emotional_impact)
    (h3 : 0 ≤ cs.content_type_match) (h4 : 0 ≤ cs.viewer_response)
    (h5 : 0 ≤ cs.visual_warmth) (h6 : 0 ≤ cs.speech_analysis) :
    0 ≤ heartwarming_final cs ms := by
  rw [heartwarming_final, heartwarming_prebonus]
  split_ifs <;> nlinarith

/-- The motivational final score is nonnegative whenever all components
are. -/
theorem motivational_final_nonneg (cs : MotivationalComponents)
    (h1 : 0 ≤ cs.achievement_authenticity) (h2 : 0 ≤ cs.struggle_to_success)
    (h3 : 0 ≤ cs.inspirational_impact) (h4 : 0 ≤ cs.actionable_value)
    (h5 : 0 ≤ cs.transformation_evidence) (h6 : 0 ≤ cs.viewer_motivation) :
    0 ≤ motivational_final cs := by
  rw [motivational_final, motivational_prebonus]
  split_ifs <;> nlinarith

/-- The traumatic final score is nonnegative whenever all components are. -/
theorem traumatic_final_nonneg (cs : TraumaticComponents)
    (h1 : 0 ≤ cs.event_severity) (h2 : 0 ≤ cs.responsible_handling)
    (h3 : 0 ≤ cs.authenticity) (h4 : 0 ≤ cs.educational_value)
    (h5 : 0 ≤ cs.viewer_impact) (h6 : 0 ≤ cs.source_credibility) :
    0 ≤ traumatic_final cs := by
  rw [traumatic_final, traumatic_prebonus]
  split_ifs <;> nlinarith

/-- Score bounds for the heartwarming analysis. -/
theorem analyze_heartwarming_score_bounds (a : AllText) (d : VideoData)
    (ms : List Moment) (cd : CategoryData) (r : HeartwarmingResult)
    (hI : 0 ≤ d.comment_sentiment.emotional_intensity)
    (hv : analyze_heartwarming_content a d ms cd = some r) :
    0 ≤ r.score ∧ r.score ≤ 10 := by
  rw [analyze_heartwarming_content] at hv
  cases ha : assess_authenticity a cd "heartwarming" with
  | none => rw [ha] at hv; simp at hv
  | some va =>
    obtain ⟨ve, he, he0, he1⟩ :=
      assess_emotional_impact_total a d.comment_sentiment "heartwarming" hI
    rw [ha, he] at hv
    simp only [bind, Option.bind, Option.pure_def, Option.some.injEq] at hv
    subst hv
    have hva := assess_authenticity_bounds a cd "heartwarming" va ha
    have h3 := assess_content_type_bounds a cd.content_types
    have h4 := assess_viewer_response_bounds ms d.comment_sentiment
    have h5 := assess_visual_warmth_bounds d.thumbnail_analysis
    have h6 := assess_speech_content_bounds a.transcript cd.speech_patterns
    constructor
    · refine le_min ?_ (by norm_num)
      exact heartwarming_final_nonneg _ _ hva.1 he0 h3.1 h4.1 h5.1 h6.1
    · exact min_le_of_right_le (by norm_num)

/-- Score bounds for the motivational analysis. -/
theorem analyze_motivational_score_bounds (a : AllText) (d : VideoData)
    (ms : List Moment) (cd : CategoryData) (r : MotivationalResult)
    (hv : analyze_motivational_content a d ms cd = some r) :
    0 ≤ r.score ∧ r.score ≤ 10 := by
  rw [analyze_motivational_content] at hv
  obtain ⟨vi, hi, hi0, hi1⟩ :=
    assess_inspirational_impact_late_total a d.comment_sentiment
  rw [hi] at hv
  simp only [bind, Option.bind, Option.pure_def, Option.some.injEq] at hv
  subst hv
  have h1 := assess_achievement_authenticity_bounds a cd
  have h2 := assess_struggle_narrative_bounds a d.transcript
  have h4 := assess_actionable_content_late_bounds a.transcript cd
  have h5 := assess_transformation_evidence_late_bounds a d
  have h6 := assess_motivation_response_late_bounds ms d.comment_sentiment
  constructor
  · refine le_min ?_ (by norm_num)
    exact motivational_final_nonneg _ h1.1 h2.1 hi0 h4.1 h5.1 h6.1
  · exact min_le_of_right_le (by norm_num)

/-- Score bounds for the traumatic analysis. -/
theorem analyze_traumatic_score_bounds (a : AllText) (d : VideoData)
    (ms : List Moment) (cd : CategoryData) (r : TraumaticResult)
    (hv : analyze_traumatic_content a d ms cd = some r) :
    0 ≤ r.score ∧ r.score ≤ 10 := by
  rw [analyze_traumatic_content] at hv
  cases ha : assess_trauma_authenticity a cd with
  | none => rw [ha] at hv; simp at hv
  | some va =>
    rw [ha] at hv
    simp only [bind, Option.bind, Option.pure_def, Option.some.injEq] at hv
    subst hv
    have hva := assess_trauma_authenticity_bounds a cd va ha
    have h1 := assess_event_severity_bounds a cd
    have h2 := assess_responsible_presentation_bounds a d
    have h4 := assess_educational_value_bounds a d.transcript
    have h5 := assess_trauma_impact_bounds ms d.comment_sentiment
    have h6 := assess_source_credibility_bounds d.channel_info a
    constructor
    · refine le_min ?_ (by norm_num)
      exact traumatic_final_nonneg _ h1.1 h2.1 hva.1 h4.1 h5.1 h6.1
    · exact min_le_of_right_le (by norm_num)

/-- A successful registry lookup identifies one of the three categories. -/
theorem dget_specialized_cases (key : String) (cd : CategoryData)
    (hcd : dget SPECIALIZED_CATEGORIES key = some cd) :
    key = "heartwarming_content" ∨ key = "motivational_content" ∨ key = "traumatic_events" := by
  by_contra hcon
  push_neg at hcon
  obtain ⟨h1, h2, h3⟩ := hcon
  rw [SPECIALIZED_CATEGORIES] at hcd
  rw [dget, if_neg, dget, if_neg, dget, if_neg, dget] at hcd
  · exact Option.noConfusion hcd
  · simp only [beq_iff_eq]; exact fun h => h3 h.symm
  · simp only [beq_iff_eq]; exact fun h => h2 h.symm
  · simp only [beq_iff_eq]; exact fun h => h1 h.symm

/-- C1: for every valid `VideoRecord` (nonnegative accumulated emotional
intensity) and every category id for which the comprehensive analysis
returns a result, the final score lies in `[0, 10]`; in particular it is
never negative even after the multiplicative gating penalty. -/
theorem C1_final_score_in_range (d : VideoData) (key : String) (r : ComprehensiveResult)
    (hI : 0 ≤ d.comment_sentiment.emotional_intensity)
    (hv : comprehensive_category_analysis d key = some r) :
    0 ≤ r.final_score ∧ r.final_score ≤ 10 := by
  rw [comprehensive_category_analysis] at hv
  cases hcd : dget SPECIALIZED_CATEGORIES key with
  | none => rw [hcd] at hv; simp at hv
  | some cd =>
    rw [hcd] at hv
    rcases dget_specialized_cases key cd hcd with rfl | rfl | rfl
    · cases hm : extract_timestamped_moments d.comments "heartwarming_content" with
      | none => rw [hm] at hv; simp at hv
      | some ms =>
        rw [hm] at hv
        simp only [bind, Option.bind] at hv
        rw [if_pos (by decide)] at hv
        cases hA : analyze_heartwarming_content (build_all_text d) d ms cd with
        | none => rw [hA] at hv; simp at hv
        | some ra =>
          rw [hA] at hv
          simp only [bind, Option.bind, Option.pure_def, Option.some.injEq] at hv
          subst hv
          exact analyze_heartwarming_score_bounds _ _ _ _ _ hI hA
    · cases hm : extract_timestamped_moments d.comments "motivational_content" with
      | none => rw [hm] at hv; simp at hv
      | some ms =>
        rw [hm] at hv
        simp only [bind, Option.bind] at hv
        rw [if_neg (by decide), if_pos (by decide)] at hv
        cases hA : analyze_motivational_content (build_all_text d) d ms cd with
        | none => rw [hA] at hv; simp at hv
        | some ra =>
          rw [hA] at hv
          simp only [bind, Option.bind, Option.pure_def, Option.some.injEq] at hv
          subst hv
          exact analyze_motivational_score_bounds _ _ _ _ _ hA
    · cases hm : extract_timestamped_moments d.comments "traumatic_events" with
      | none => rw [hm] at hv; simp at hv
      | some ms =>
        rw [hm] at hv
        simp only [bind, Option.bind] at hv
        rw [if_neg (by decide), if_neg (by decide), if_pos (by decide)] at hv
        cases hA : analyze_traumatic_content (build_all_text d) d ms cd with
        | none => rw [hA] at hv; simp at hv
        | some ra =>
          rw [hA] at hv
          simp only [bind, Option.bind, Option.pure_def, Option.some.injEq] at hv
          subst hv
          exact analyze_traumatic_score_bounds _ _ _ _ _ hA

/-- C3: every component assessor returns a value in `[0, 1]` for every
input (with the pipeline invariant that accumulated emotional intensity is
nonnegative); assessors that can only be reached through a successful dict
lookup or a guarded division return `some` of such a value. -/
theorem C3_components_in_unit_interval
    (a : AllText) (cd : CategoryData) (ct : String) (s : Sentiment)
    (ms : List Moment) (th : ThumbnailAnalysis) (td : TranscriptData)
    (ci : ChannelInfo) (d : VideoData) (tt : String)
    (cts sp : List (String × List String))
    (hI : 0 ≤ s.emotional_intensity) :
    (∀ v, assess_authenticity a cd ct = some v → 0 ≤ v ∧ v ≤ 1) ∧
    (∃ v, assess_emotional_impact a s ct = some v ∧ 0 ≤ v ∧ v ≤ 1) ∧
    (0 ≤ assess_content_type a cts ∧ assess_content_type a cts ≤ 1) ∧
    (0 ≤ assess_viewer_response ms s ∧ assess_viewer_response ms s ≤ 1) ∧
    (0 ≤ assess_visual_warmth th ∧ assess_visual_warmth th ≤ 1) ∧
    (0 ≤ assess_speech_content tt sp ∧ assess_speech_content tt sp ≤ 1) ∧
    (0 ≤ assess_achievement_authenticity a cd ∧ assess_achievement_authenticity a cd ≤ 1) ∧
    (0 ≤ assess_struggle_narrative a td ∧ assess_struggle_narrative a td ≤ 1) ∧
    (∃ v, assess_inspirational_impact a s = some v ∧ 0 ≤ v ∧ v ≤ 1) ∧
    (∃ v, assess_inspirational_impact_late a s = some v ∧ 0 ≤ v ∧ v ≤ 1) ∧
    (0 ≤ assess_actionable_content tt cd ∧ assess_actionable_content tt cd ≤ 1) ∧
    (0 ≤ assess_actionable_content_late tt cd ∧ assess_actionable_content_late tt cd ≤ 1) ∧
    (∃ v, assess_transformation_evidence a d = some v ∧ 0 ≤ v ∧ v ≤ 1) ∧
    (0 ≤ assess_transformation_evidence_late a d ∧ assess_transformation_evidence_late a d ≤ 1) ∧
    (0 ≤ assess_motivation_response ms s ∧ assess_motivation_response ms s ≤ 1) ∧
    (0 ≤ assess_motivation_response_late ms s ∧ assess_motivation_response_late ms s ≤ 1) ∧
    (0 ≤ assess_event_severity a cd ∧ assess_event_severity a cd ≤ 1) ∧
    (0 ≤ assess_responsible_presentation a d ∧ assess_responsible_presentation a d ≤ 1) ∧
    (∀ v, assess_trauma_authenticity a cd = some v → 0 ≤ v ∧ v ≤ 1) ∧
    (0 ≤ assess_educational_value a td ∧ assess_educational_value a td ≤ 1) ∧
    (0 ≤ assess_trauma_impact ms s ∧ assess_trauma_impact ms s ≤ 1) ∧
    (0 ≤ assess_source_credibility ci a ∧ assess_source_credibility ci a ≤ 1) :=
  ⟨fun v hv => assess_authenticity_bounds a cd ct v hv,
   assess_emotional_impact_total a s ct hI,
   assess_content_type_bounds a cts,
   assess_viewer_response_bounds ms s,
   assess_visual_warmth_bounds th,
   assess_speech_content_bounds tt sp,
   assess_achievement_authenticity_bounds a cd,
   assess_struggle_narrative_bounds a td,
   assess_inspirational_impact_total a s,
   assess_inspirational_impact_late_total a s,
   assess_actionable_content_bounds tt cd,
   assess_actionable_content_late_bounds tt cd,
   assess_transformation_evidence_total a d,
   assess_transformation_evidence_late_bounds a d,
   assess_motivation_response_bounds ms s,
   assess_motivation_response_late_bounds ms s,
   assess_event_severity_bounds a cd,
   assess_responsible_presentation_bounds a d,
   fun v hv => assess_trauma_authenticity_bounds a cd v hv,
   assess_educational_value_bounds a td,
   assess_trauma_impact_bounds ms s,
   assess_source_credibility_bounds ci a⟩

/-! ## Shared concrete inputs for witnesses and counterexamples -/

/-- An empty sentiment record (what `fetch_enhanced_comments` yields for a
video with no retrievable comments). -/
def s0 : Sentiment where
  positive := 0
  negative := 0
  neutral := 0
  total := 0
  emotional_intensity := 0

/-- A fully absent video record: no text, no comments, no transcript, no
channel data, fallback thumbnail. -/
def d0 : VideoData where
  title := ""
  description := ""
  viewCount := 0
  likeCount := 0
  commentCount := 0
  comments := []
  comment_sentiment := s0
  transcript := { available := false, text := "" }
  channel_info := { subscriber_count := 0, video_count := 0, description := "" }
  thumbnail_analysis :=
    { available := false
      brightness := 128
      contrast := 40
      color_profile := { red_dominant := false, warm_tones := false, cold_tones := false } }

/-- The empty text corpus. -/
def a0 : AllText where
  title := ""
  description := ""
  comments := ""
  transcript := ""
  channel_desc := ""

/-- Witness for C3 at a concrete input: the empty corpus, empty sentiment,
heartwarming profile. -/
theorem C3_components_in_unit_interval_witness :
    (∀ v, assess_authenticity a0 heartwarmingCat "heartwarming" = some v → 0 ≤ v ∧ v ≤ 1) ∧
    (∃ v, assess_emotional_impact a0 s0 "heartwarming" = some v ∧ 0 ≤ v ∧ v ≤ 1) ∧
    (0 ≤ assess_content_type a0 heartwarmingCat.content_types ∧
      assess_content_type a0 heartwarmingCat.content_types ≤ 1) ∧
    (0 ≤ assess_viewer_response [] s0 ∧ assess_viewer_response [] s0 ≤ 1) ∧
    (0 ≤ assess_visual_warmth d0.thumbnail_analysis ∧
      assess_visual_warmth d0.thumbnail_analysis ≤ 1) ∧
    (0 ≤ assess_speech_content "" heartwarmingCat.speech_patterns ∧
      assess_speech_content "" heartwarmingCat.speech_patterns ≤ 1) ∧
    (0 ≤ assess_achievement_authenticity a0 heartwarmingCat ∧
      assess_achievement_authenticity a0 heartwarmingCat ≤ 1) ∧
    (0 ≤ assess_struggle_narrative a0 d0.transcript ∧
      assess_struggle_narrative a0 d0.transcript ≤ 1) ∧
    (∃ v, assess_inspirational_impact a0 s0 = some v ∧ 0 ≤ v ∧ v ≤ 1) ∧
    (∃ v, assess_inspirational_impact_late a0 s0 = some v ∧ 0 ≤ v ∧ v ≤ 1) ∧
    (0 ≤ assess_actionable_content "" heartwarmingCat ∧
      assess_actionable_content "" heartwarmingCat ≤ 1) ∧
    (0 ≤ assess_actionable_content_late "" heartwarmingCat ∧
      assess_actionable_content_late "" heartwarmingCat ≤ 1) ∧
    (∃ v, assess_transformation_evidence a0 d0 = some v ∧ 0 ≤ v ∧ v ≤ 1) ∧
    (0 ≤ assess_transformation_evidence_late a0 d0 ∧
      assess_transformation_evidence_late a0 d0 ≤ 1) ∧
    (0 ≤ assess_motivation_response [] s0 ∧ assess_motivation_response [] s0 ≤ 1) ∧
    (0 ≤ assess_motivation_response_late [] s0 ∧ assess_motivation_response_late [] s0 ≤ 1) ∧
    (0 ≤ assess_event_severity a0 heartwarmingCat ∧ assess_event_severity a0 heartwarmingCat ≤ 1) ∧
    (0 ≤ assess_responsible_presentation a0 d0 ∧ assess_responsible_presentation a0 d0 ≤ 1) ∧
    (∀ v, assess_trauma_authenticity a0 heartwarmingCat = some v → 0 ≤ v ∧ v ≤ 1) ∧
    (0 ≤ assess_educational_value a0 d0.transcript ∧ assess_educational_value a0 d0.transcript ≤ 1) ∧
    (0 ≤ assess_trauma_impact [] s0 ∧ assess_trauma_impact [] s0 ≤ 1) ∧
    (0 ≤ assess_source_credibility d0.channel_info a0 ∧
      assess_source_credibility d0.channel_info a0 ≤ 1) :=
  C3_components_in_unit_interval a0 heartwarmingCat "heartwarming" s0 [] d0.thumbnail_analysis
    d0.transcript d0.channel_info d0 "" heartwarmingCat.content_types
    heartwarmingCat.speech_patterns (by norm_num [s0])

/-- Witness for C1: the comprehensive heartwarming analysis of the empty
video record succeeds and its final score is within `[0, 10]`. -/
theorem C1_final_score_in_range_witness :
    0 ≤ ((comprehensive_category_analysis d0 "heartwarming_content").get (by decide)).final_score ∧
    ((comprehensive_category_analysis d0 "heartwarming_content").get (by decide)).final_score ≤ 10 :=
  C1_final_score_in_range d0 "heartwarming_content" _ (by decide)
    (Option.some_get (by decide)).symm

/-! ## C2: gating penalty multipliers -/

/-- All-zero heartwarming components. -/
def hcs0 : HeartwarmingComponents where
  authenticity := 0
  emotional_impact := 0
  content_type_match := 0
  viewer_response := 0
  visual_warmth := 0
  speech_analysis := 0

/-- All-zero motivational components. -/
def mcs0 : MotivationalComponents where
  achievement_authenticity := 0
  struggle_to_success := 0
  inspirational_impact := 0
  actionable_value := 0
  transformation_evidence := 0
  viewer_motivation := 0

/-- All-zero traumatic components. -/
def tcs0 : TraumaticComponents where
  event_severity := 0
  responsible_handling := 0
  authenticity := 0
  educational_value := 0
  viewer_impact := 0
  source_credibility := 0

/-- Counterexample to C2 as stated: with all components at zero the
unpenalized scores are the bases 3, 1 and 2; the gates all fire, and the
penalized finals are 2.1, 0.5 and 1.2 — i.e. multipliers 0.7, 0.5 and 0.6
— not the claimed 0.6, 0.4 and 0.5 (which would give 1.8, 0.4 and 1.0). -/
theorem C2_gating_multipliers_counterexample :
    hcs0.authenticity < 0.4 ∧ heartwarming_final hcs0 [] = 3 * 0.7 ∧
      heartwarming_final hcs0 [] ≠ 3 * 0.6 ∧
    tcs0.responsible_handling < 0.5 ∧ traumatic_final tcs0 = 1 * 0.5 ∧
      traumatic_final tcs0 ≠ 1 * 0.4 ∧
    mcs0.achievement_authenticity < 0.3 ∧ motivational_final mcs0 = 2 * 0.6 ∧
      motivational_final mcs0 ≠ 2 * 0.5 := by
  norm_num [hcs0, tcs0, mcs0, heartwarming_final, heartwarming_prebonus,
    traumatic_final, traumatic_prebonus, motivational_final, motivational_prebonus]

/-- C2 (amended): the gating thresholds are as claimed but the code's
multipliers are ×0.7 for heartwarming (`authenticity < 0.4`), ×0.5 for
traumatic (`responsible_handling < 0.5`) and ×0.6 for motivational
(`achievement_authenticity < 0.3`). -/
theorem C2_gating_multipliers_amended :
    (∀ (cs : HeartwarmingComponents) (ms : List Moment), cs.authenticity < 0.4 →
      heartwarming_final cs ms =
        (3.0 + (cs.authenticity * 0.25 + cs.emotional_impact * 0.25 +
          cs.content_type_match * 0.20 + cs.viewer_response * 0.15 +
          cs.visual_warmth * 0.08 + cs.speech_analysis * 0.07) * 7.0) * 0.7 +
        (if 2 ≤ (ms.filter fun m => m.relevance_score ≥ 5.0).length then 0.8 else 0)) ∧
    (∀ cs : TraumaticComponents, cs.responsible_handling < 0.5 →
      traumatic_final cs =
        (1.0 + (cs.event_severity * 0.25 + cs.responsible_handling * 0.25 +
          cs.authenticity * 0.20 + cs.educational_value * 0.15 +
          cs.viewer_impact * 0.10 + cs.source_credibility * 0.05) * 9.0) * 0.5 +
        (if cs.educational_value > 0.7 ∧ cs.responsible_handling > 0.7 then 0.5 else 0)) ∧
    (∀ cs : MotivationalComponents, cs.achievement_authenticity < 0.3 →
      motivational_final cs =
        ((2.0 + (cs.achievement_authenticity * 0.25 + cs.struggle_to_success * 0.20 +
          cs.inspirational_impact * 0.20 + cs.actionable_value * 0.15 +
          cs.transformation_evidence * 0.12 + cs.viewer_motivation * 0.08) * 8.0) +
         (if cs.achievement_authenticity > 0.8 ∧ cs.struggle_to_success > 0.7
          then 1.0 else 0)) * 0.6) := by
  refine ⟨fun cs ms h => ?_, fun cs h => ?_, fun cs h => ?_⟩
  · rw [heartwarming_final, heartwarming_prebonus, if_pos h]
    split_ifs <;> ring
  · rw [traumatic_final, traumatic_prebonus, if_pos h]
    split_ifs <;> ring
  · rw [motivational_final, motivational_prebonus]
    split_ifs <;> first | ring | linarith

/-- Witness for the amended C2 at the all-zero components: the penalized
finals evaluate to base × multiplier for each category. -/
theorem C2_gating_multipliers_amended_witness :
    heartwarming_final hcs0 [] =
      (3.0 + (hcs0.authenticity * 0.25 + hcs0.emotional_impact * 0.25 +
        hcs0.content_type_match * 0.20 + hcs0.viewer_response * 0.15 +
        hcs0.visual_warmth * 0.08 + hcs0.speech_analysis * 0.07) * 7.0) * 0.7 +
      (if 2 ≤ (([] : List Moment).filter fun m => m.relevance_score ≥ 5.0).length
       then 0.8 else 0) ∧
    traumatic_final tcs0 =
      (1.0 + (tcs0.event_severity * 0.25 + tcs0.responsible_handling * 0.25 +
        tcs0.authenticity * 0.20 + tcs0.educational_value * 0.15 +
        tcs0.viewer_impact * 0.10 + tcs0.source_credibility * 0.05) * 9.0) * 0.5 +
      (if tcs0.educational_value > 0.7 ∧ tcs0.responsible_handling > 0.7 then 0.5 else 0) ∧
    motivational_final mcs0 =
      ((2.0 + (mcs0.achievement_authenticity * 0.25 + mcs0.struggle_to_success * 0.20 +
        mcs0.inspirational_impact * 0.20 + mcs0.actionable_value * 0.15 +
        mcs0.transformation_evidence * 0.12 + mcs0.viewer_motivation * 0.08) * 8.0) +
       (if mcs0.achievement_authenticity > 0.8 ∧ mcs0.struggle_to_success > 0.7
        then 1.0 else 0)) * 0.6 :=
  ⟨C2_gating_multipliers_amended.1 hcs0 [] (by norm_num [hcs0]),
   C2_gating_multipliers_amended.2.1 tcs0 (by norm_num [tcs0]),
   C2_gating_multipliers_amended.2.2 mcs0 (by norm_num [mcs0])⟩

/-! ## C4: moment-quality bonus -/

/-- A concrete moment with relevance 6 (≥ the 5.0 quality threshold). -/
def m6 : Moment where
  timestamp := "2:15"
  comment := ""
  relevance_score := 6
  sentiment := "neutral"
  category_indicators := { content_types := [], emotions := [], authenticity := "unknown" }

/-- Value of `assess_event_severity` on the empty corpus. -/
theorem t_es : assess_event_severity a0 traumaticCat = 0.2 := by
  have h1 : ((["earthquake", "hurricane", "flood", "wildfire", "tsunami", "tornado"] : List String).filter
      fun kw => strIn kw a0.title || strIn kw a0.description).length = 0 := by decide
  have h2 : ((["crash", "accident", "collision", "emergency", "rescue operation"] : List String).filter
      fun kw => strIn kw a0.title || strIn kw a0.description).length = 0 := by decide
  have h3 : ((["loss", "death", "injury", "diagnosis", "tragedy", "victim"] : List String).filter
      fun kw => strIn kw a0.title || strIn kw a0.description).length = 0 := by decide
  have h4 : ((["protest", "conflict", "violence", "crisis", "emergency"] : List String).filter
      fun kw => strIn kw a0.title || strIn kw a0.description).length = 0 := by decide
  rw [assess_event_severity]
  simp only [traumaticCat, List.map_cons, List.map_nil, h1, h2, h3, h4]
  norm_num

/-- Value of `assess_responsible_presentation` on the empty corpus. -/
theorem t_rp : assess_responsible_presentation a0 d0 = 0.5 := by
  have h1 : countHits ["awareness", "education", "prevention", "help", "support", "resources"]
      a0.description = 0 := by decide
  have h2 : countHits ["shocking", "insane", "crazy", "unbelievable", "viral", "dramatic"]
      a0.title = 0 := by decide
  rw [assess_responsible_presentation]
  simp only [h1, h2]
  norm_num

/-- Value of `assess_trauma_authenticity` on the empty corpus. -/
theorem t_ta : assess_trauma_authenticity a0 traumaticCat = some 0.5 := by
  have h1 : ((["breaking news", "live coverage", "witness account", "survivor story",
      "documentary"] : List String).filter
      fun s => strIn s a0.title || strIn s a0.description).length = 0 := by decide
  have h2 : countHits ["clickbait", "dramatic music", "sensationalized", "views only"]
      a0.title = 0 := by decide
  rw [assess_trauma_authenticity]
  simp only [dget, traumaticCat, bind, Option.bind, beq_self_eq_true, if_true,
    beq_iff_eq, String.reduceEq, if_false, reduceIte, h1, h2]
  norm_num

/-- Value of `assess_educational_value` on the empty corpus without a
transcript. -/
theorem t_ev : assess_educational_value a0 d0.transcript = 0.3 := by
  have h1 : countHits ["learn", "understand", "awareness", "prevention", "important to know",
      "education"] a0.description = 0 := by decide
  rw [assess_educational_value]
  have hav : d0.transcript.available = false := rfl
  rw [hav]
  simp only [Bool.false_eq_true, if_false, h1]
  norm_num

/-- Value of `assess_trauma_impact` with zero comment total. -/
theorem t_ti : assess_trauma_impact [m6, m6] d0.comment_sentiment = 0.4 := by
  have h : d0.comment_sentiment.total = 0 := rfl
  rw [assess_trauma_impact, h]
  norm_num

/-- Value of `assess_source_credibility` for the empty channel. -/
theorem t_sc : assess_source_credibility d0.channel_info a0 = 0.5 := by
  have h : ((["news", "media", "journalist", "reporter", "official"] : List String).any
      fun i => strIn i (pylower d0.channel_info.description)) = false := by decide
  have h2 : d0.channel_info.subscriber_count = 0 := rfl
  rw [assess_source_credibility, h, h2]
  norm_num

/-- The traumatic analysis score at the empty corpus with two
high-relevance moments. -/
theorem t_an : (analyze_traumatic_content a0 d0 [m6, m6] traumaticCat).map
    TraumaticResult.score = some (893/200) := by
  rw [analyze_traumatic_content, t_ta]
  rw [t_es, t_rp, t_ev, t_ti, t_sc]
  simp only [bind, Option.bind, Option.pure_def]
  norm_num [traumatic_final, traumatic_prebonus]

/-- Counterexample to C4 as stated: a traumatic analysis run whose moments
list contains two moments of relevance ≥ 5.0 (so the claimed bonus of
0.8-1.0 should apply) returns exactly the unbonused weighted score
893/200, which is strictly below any bonused value. -/
theorem C4_moment_bonus_counterexample :
    (([m6, m6].filter fun m => m.relevance_score ≥ 5.0).length = 2) ∧
    (analyze_traumatic_content a0 d0 [m6, m6] traumaticCat).map
      TraumaticResult.score = some (893/200) ∧
    (893/200 : ℚ) < 893/200 + 0.8 := by
  refine ⟨?_, t_an, by norm_num⟩
  norm_num [m6]

/-- C4 (amended): only the heartwarming category adds a moment-count bonus
(+0.8 exactly, when at least two moments have relevance ≥ 5.0).  The
traumatic bonus (+0.5) and the motivational bonus (+1.0) are gated on
component values only and ignore the moments entirely. -/
theorem C4_moment_bonus_amended :
    (∀ (cs : HeartwarmingComponents) (ms : List Moment),
      2 ≤ (ms.filter fun m => m.relevance_score ≥ 5.0).length →
      heartwarming_final cs ms = heartwarming_prebonus cs + 0.8) ∧
    (∀ (cs : HeartwarmingComponents) (ms : List Moment),
      (ms.filter fun m => m.relevance_score ≥ 5.0).length < 2 →
      heartwarming_final cs ms = heartwarming_prebonus cs) ∧
    (∀ cs : TraumaticComponents,
      traumatic_final cs = traumatic_prebonus cs +
        (if cs.educational_value > 0.7 ∧ cs.responsible_handling > 0.7 then 0.5 else 0)) ∧
    (∀ cs : MotivationalComponents,
      motivational_final cs =
        (motivational_prebonus cs +
          (if cs.achievement_authenticity > 0.8 ∧ cs.struggle_to_success > 0.7
           then 1.0 else 0)) *
        (if cs.achievement_authenticity < 0.3 then 0.6 else 1)) := by
  refine ⟨fun cs ms h => ?_, fun cs ms h => ?_, fun cs => ?_, fun cs => ?_⟩
  · rw [heartwarming_final, if_pos h]
  · rw [heartwarming_final, if_neg (by omega)]
  · rw [traumatic_final]
    split_ifs <;> ring
  · rw [motivational_final]
    split_ifs <;> ring

/-- Witness for the amended C4: two high-relevance moments add exactly 0.8
to the heartwarming pre-bonus score at the all-zero components. -/
theorem C4_moment_bonus_amended_witness :
    heartwarming_final hcs0 [m6, m6] = heartwarming_prebonus hcs0 + 0.8 :=
  C4_moment_bonus_amended.1 hcs0 [m6, m6] (by norm_num [m6])

/-! ## C5: confidence bounds and monotonicity -/

set_option maxHeartbeats 3000000 in
/-- C5: each category's confidence lies in `[0, 1]`, and is monotonically
non-decreasing when optional evidence grows (more comments, a transcript
becoming available, more views) while everything else (components,
moments, channel data) is held fixed. -/
theorem C5_confidence_bounds_and_monotone :
    (∀ (d : VideoData) (cs : HeartwarmingComponents) (ms : List Moment),
      0 ≤ calculate_heartwarming_confidence d cs ms ∧
      calculate_heartwarming_confidence d cs ms ≤ 1) ∧
    (∀ (d : VideoData) (cs : MotivationalComponents) (ms : List Moment),
      0 ≤ calculate_motivational_confidence d cs ms ∧
      calculate_motivational_confidence d cs ms ≤ 1) ∧
    (∀ (d : VideoData) (cs : TraumaticComponents) (ms : List Moment),
      0 ≤ calculate_trauma_confidence d cs ms ∧
      calculate_trauma_confidence d cs ms ≤ 1) ∧
    (∀ (d d' : VideoData) (cs : HeartwarmingComponents) (ms : List Moment),
      d.comments.length ≤ d'.comments.length →
      (d.transcript.available = true → d'.transcript.available = true) →
      d.viewCount ≤ d'.viewCount →
      d.channel_info = d'.channel_info →
      calculate_heartwarming_confidence d cs ms ≤ calculate_heartwarming_confidence d' cs ms) ∧
    (∀ (d d' : VideoData) (cs : MotivationalComponents) (ms : List Moment),
      d.comments.length ≤ d'.comments.length →
      (d.transcript.available = true → d'.transcript.available = true) →
      d.viewCount ≤ d'.viewCount →
      d.channel_info = d'.channel_info →
      calculate_motivational_confidence d cs ms ≤ calculate_motivational_confidence d' cs ms) ∧
    (∀ (d d' : VideoData) (cs : TraumaticComponents) (ms : List Moment),
      d.comments.length ≤ d'.comments.length →
      (d.transcript.available = true → d'.transcript.available = true) →
      d.viewCount ≤ d'.viewCount →
      d.channel_info = d'.channel_info →
      calculate_trauma_confidence d cs ms ≤ calculate_trauma_confidence d' cs ms) := by
  refine ⟨fun d cs ms => ?_, fun d cs ms => ?_, fun d cs ms => ?_,
          fun d d' cs ms h1 h2 h3 h4 => ?_, fun d d' cs ms h1 h2 h3 h4 => ?_,
          fun d d' cs ms h1 h2 h3 h4 => ?_⟩
  · rw [calculate_heartwarming_confidence]
    constructor
    all_goals split_ifs
    all_goals norm_num
  · rw [calculate_motivational_confidence]
    constructor
    all_goals split_ifs
    all_goals norm_num
  · rw [calculate_trauma_confidence]
    constructor
    all_goals split_ifs
    all_goals norm_num
  · rw [calculate_heartwarming_confidence, calculate_heartwarming_confidence]
    split_ifs
    all_goals try omega
    all_goals try tauto
    all_goals norm_num
  · rw [calculate_motivational_confidence, calculate_motivational_confidence]
    split_ifs
    all_goals try omega
    all_goals try tauto
    all_goals norm_num
  · rw [calculate_trauma_confidence, calculate_trauma_confidence, h4]
    split_ifs
    all_goals try omega
    all_goals try tauto
    all_goals norm_num

/-- A record with more optional evidence than `d0`: 25 comments, an
available transcript, and a positive view count. -/
def d1 : VideoData :=
  { d0 with
      comments := List.replicate 25 ""
      transcript := { available := true, text := "" }
      viewCount := 5 }

/-- Witness for C5: bounds at the empty record and monotonicity from the
empty record to `d1`. -/
theorem C5_confidence_bounds_and_monotone_witness :
    (0 ≤ calculate_heartwarming_confidence d0 hcs0 [] ∧
      calculate_heartwarming_confidence d0 hcs0 [] ≤ 1) ∧
    calculate_heartwarming_confidence d0 hcs0 [] ≤
      calculate_heartwarming_confidence d1 hcs0 [] ∧
    calculate_motivational_confidence d0 mcs0 [] ≤
      calculate_motivational_confidence d1 mcs0 [] ∧
    calculate_trauma_confidence d0 tcs0 [] ≤ calculate_trauma_confidence d1 tcs0 [] :=
  ⟨C5_confidence_bounds_and_monotone.1 d0 hcs0 [],
   C5_confidence_bounds_and_monotone.2.2.2.1 d0 d1 hcs0 []
     (by decide) (fun h => rfl) (by decide) rfl,
   C5_confidence_bounds_and_monotone.2.2.2.2.1 d0 d1 mcs0 []
     (by decide) (fun h => rfl) (by decide) rfl,
   C5_confidence_bounds_and_monotone.2.2.2.2.2 d0 d1 tcs0 []
     (by decide) (fun h => rfl) (by decide) rfl⟩

/-! ## C6: stable descending sort of moments -/

/-- Descending comparison on relevance scores. -/
def relGE (a b : Moment) : Prop := b.relevance_score ≤ a.relevance_score

/-- Membership in an insertion. -/
theorem mem_insM {y x : Moment} : ∀ {l : List Moment}, y ∈ insM x l → y = x ∨ y ∈ l := by
  intro l
  induction l with
  | nil =>
    rw [insM]
    intro h
    exact Or.inl (List.mem_singleton.mp h)
  | cons h t ih =>
    rw [insM]
    split_ifs with hrel
    · intro hy
      rcases List.mem_cons.mp hy with rfl | hy'
      · exact Or.inr (List.mem_cons_self _ _)
      · rcases ih hy' with rfl | hy''
        · exact Or.inl rfl
        · exact Or.inr (List.mem_cons_of_mem _ hy'')
    · intro hy
      rcases List.mem_cons.mp hy with rfl | hy'
      · exact Or.inl rfl
      · exact Or.inr hy'

/-- Inserting into a descending-sorted list keeps it sorted. -/
theorem sorted_insM (x : Moment) :
    ∀ l : List Moment, List.Sorted relGE l → List.Sorted relGE (insM x l) := by
  intro l hl
  induction l with
  | nil =>
    rw [insM]
    exact List.sorted_singleton x
  | cons h t ih =>
    rw [List.sorted_cons] at hl
    obtain ⟨hall, ht⟩ := hl
    rw [insM]
    split_ifs with hrel
    · rw [List.sorted_cons]
      refine ⟨fun b hb => ?_, ih ht⟩
      rcases mem_insM hb with rfl | hbt
      · exact le_of_lt hrel
      · exact hall b hbt
    · rw [List.sorted_cons]
      refine ⟨fun b hb => ?_, List.sorted_cons.mpr ⟨hall, ht⟩⟩
      rcases List.mem_cons.mp hb with rfl | hbt
      · exact le_of_not_lt hrel
      · exact le_trans (hall b hbt) (le_of_not_lt hrel)

/-- The modelled Python sort is descending in relevance. -/
theorem sorted_pysortDesc : ∀ l : List Moment, List.Sorted relGE (pysortDesc l) := by
  intro l
  induction l with
  | nil => exact List.sorted_nil
  | cons x t ih =>
    rw [pysortDesc]
    exact sorted_insM x _ ih

/-- Filtering one relevance class through an insertion: the inserted
element lands in front of the class exactly when it belongs to it, because
it is placed after the strictly-greater elements only. -/
theorem filter_insM (q : ℚ) (x : Moment) : ∀ l : List Moment,
    (insM x l).filter (fun m => decide (m.relevance_score = q)) =
    if x.relevance_score = q
    then x :: l.filter (fun m => decide (m.relevance_score = q))
    else l.filter (fun m => decide (m.relevance_score = q)) := by
  intro l
  induction l with
  | nil =>
    rw [insM]
    simp only [List.filter]
    split_ifs with hq
    · simp [hq]
    · simp [hq]
  | cons h t ih =>
    rw [insM]
    by_cases hrel : h.relevance_score > x.relevance_score
    · rw [if_pos hrel, List.filter_cons, ih]
      by_cases hq : x.relevance_score = q
      · have hh : (decide (h.relevance_score = q)) = false := by
          simp only [decide_eq_false_iff_not]
          intro heq
          rw [hq] at hrel
          exact absurd heq (ne_of_gt hrel)
        rw [if_pos hq, hh]
        simp only [Bool.false_eq_true, if_false, if_pos hq, List.filter_cons, hh]
      · rw [if_neg hq, if_neg hq, List.filter_cons]
    · rw [if_neg hrel, List.filter_cons]
      by_cases hq : x.relevance_score = q
      · rw [if_pos hq]
        simp [hq]
      · rw [if_neg hq]
        simp [hq]

/-- The modelled Python sort is stable: each relevance class keeps its
original relative order. -/
theorem filter_pysortDesc (q : ℚ) : ∀ l : List Moment,
    (pysortDesc l).filter (fun m => decide (m.relevance_score = q)) =
    l.filter (fun m => decide (m.relevance_score = q)) := by
  intro l
  induction l with
  | nil => rfl
  | cons x t ih =>
    rw [pysortDesc, filter_insM, ih, List.filter_cons]
    by_cases hq : x.relevance_score = q
    · rw [if_pos hq]
      simp [hq]
    · rw [if_neg hq]
      simp [hq]

/-- C6: whenever moment extraction returns, the returned list is sorted by
relevance score in descending order, and within each relevance class the
relative order is exactly the order in which the moments were collected
from the comments (stability, no secondary key). -/
theorem C6_moments_sorted_stable (comments : List String) (key : String)
    (raw ms : List Moment)
    (hraw : collect_moments comments key = some raw)
    (hms : extract_timestamped_moments comments key = some ms) :
    List.Sorted relGE ms ∧
    ∀ q : ℚ, ms.filter (fun m => decide (m.relevance_score = q)) =
      raw.filter (fun m => decide (m.relevance_score = q)) := by
  rw [extract_timestamped_moments, hraw, Option.map_some'] at hms
  have hms' : ms = pysortDesc raw := (Option.some.injEq _ _ ▸ hms).symm
  subst hms'
  exact ⟨sorted_pysortDesc raw, fun q => filter_pysortDesc q raw⟩

/-- Relevance of the witness comment for C6/C7 staging. -/
theorem relc : calculate_moment_relevance "2:15 tears" heartwarmingCat = 2 := by
  have c1 : countHits ["reunion", "homecoming", "surprise visit", "long distance", "deployed", "military"] "2:15 tears" = 0 := by decide
  have c2 : countHits ["helped", "donated", "volunteer", "charity", "generous", "gave", "sacrifice"] "2:15 tears" = 0 := by decide
  have c3 : countHits ["proposal", "wedding", "birth", "adoption", "graduation", "achievement"] "2:15 tears" = 0 := by decide
  have c4 : countHits ["rescue", "saved", "found", "lost pet", "missing", "search"] "2:15 tears" = 0 := by decide
  have e1 : countHits ["crying", "sobbing", "bawling", "tears streaming", "ugly crying", "emotional wreck"] "2:15 tears" = 0 := by decide
  have e2 : countHits ["tears", "emotional", "touched", "moved", "feels", "heart melting"] "2:15 tears" = 1 := by decide
  have e3 : countHits ["happy tears", "joy", "beautiful", "sweet", "precious", "wholesome", "pure"] "2:15 tears" = 0 := by decide
  have cx : countHits ["this part", "here", "moment", "scene", "exactly", "perfect", "best part", "favorite"] "2:15 tears" = 0 := by decide
  rw [calculate_moment_relevance]
  simp only [heartwarmingCat, List.map_cons, List.map_nil, c1, c2, c3, c4, e1, e2, e3, cx,
    String.reduceBEq, Bool.false_eq_true, if_false, beq_self_eq_true, if_true]
  norm_num

/-- The moment extracted from the witness comment. -/
def mT : Moment where
  timestamp := "2:15"
  comment := "2:15 tears"
  relevance_score := 2
  sentiment := "positive"
  category_indicators := { content_types := [], emotions := ["tears"], authenticity := "unknown" }

/-- Collection of moments from the witness comment. -/
theorem collT : collect_moments ["2:15 tears"] "heartwarming_content" = some [mT] := by
  have hlow : pylower "2:15 tears" = "2:15 tears" := by decide
  rw [collect_moments]
  simp only [dget, SPECIALIZED_CATEGORIES, beq_self_eq_true, if_true, bind, Option.bind,
    List.mapM_cons, List.mapM_nil, hlow]
  rw [relc]
  decide

/-- Extraction (collection followed by the stable sort) on the witness
comment. -/
theorem extractT :
    extract_timestamped_moments ["2:15 tears"] "heartwarming_content" = some [mT] := by
  rw [extract_timestamped_moments, collT, Option.map_some']
  rfl

/-- Witness for C6 at a concrete comment list. -/
theorem C6_moments_sorted_stable_witness :
    List.Sorted relGE [mT] ∧
    ([mT].filter fun m => decide (m.relevance_score = 2)) =
      ([mT].filter fun m => decide (m.relevance_score = 2)) :=
  ⟨(C6_moments_sorted_stable ["2:15 tears"] "heartwarming_content" [mT] [mT]
      collT extractT).1,
   (C6_moments_sorted_stable ["2:15 tears"] "heartwarming_content" [mT] [mT]
      collT extractT).2 2⟩

/-! ## C7: matched emotion words per moment -/

/-- The C7 counterexample comment: two strong, two moderate and three
positive emotion words behind a timestamp. -/
def cE : String := "2:15 crying sobbing tears emotional joy beautiful sweet"

/-- Relevance of the C7 counterexample comment. -/
theorem relE : calculate_moment_relevance cE heartwarmingCat = 13 := by
  have c1 : countHits ["reunion", "homecoming", "surprise visit", "long distance", "deployed", "military"] cE = 0 := by decide
  have c2 : countHits ["helped", "donated", "volunteer", "charity", "generous", "gave", "sacrifice"] cE = 0 := by decide
  have c3 : countHits ["proposal", "wedding", "birth", "adoption", "graduation", "achievement"] cE = 0 := by decide
  have c4 : countHits ["rescue", "saved", "found", "lost pet", "missing", "search"] cE = 0 := by decide
  have e1 : countHits ["crying", "sobbing", "bawling", "tears streaming", "ugly crying", "emotional wreck"] cE = 2 := by decide
  have e2 : countHits ["tears", "emotional", "touched", "moved", "feels", "heart melting"] cE = 2 := by decide
  have e3 : countHits ["happy tears", "joy", "beautiful", "sweet", "precious", "wholesome", "pure"] cE = 3 := by decide
  have cx : countHits ["this part", "here", "moment", "scene", "exactly", "perfect", "best part", "favorite"] cE = 0 := by decide
  rw [calculate_moment_relevance]
  simp only [heartwarmingCat, List.map_cons, List.map_nil, c1, c2, c3, c4, e1, e2, e3, cx,
    String.reduceBEq, Bool.false_eq_true, if_false, beq_self_eq_true, if_true]
  norm_num

/-- Counterexample to C7 as stated: the moment extracted from `cE` carries
seven matched emotion words (three tiers, capped at three per tier), which
exceeds the claimed overall cap of three. -/
theorem C7_emotion_words_counterexample :
    (extract_timestamped_moments [cE] "heartwarming_content").map
      (fun ms => ms.map fun m => m.category_indicators.emotions.length) = some [7] ∧
    ¬ (7 : ℕ) ≤ 3 := by
  constructor
  · have hlow : pylower cE = cE := by decide
    rw [extract_timestamped_moments, collect_moments]
    simp only [dget, SPECIALIZED_CATEGORIES, beq_self_eq_true, if_true, bind, Option.bind,
      List.mapM_cons, List.mapM_nil, hlow]
    rw [relE]
    decide
  · omega

/-- C7 (amended): `get_category_indicators` caps matched emotion words at
three per emotion tier, so a moment carries at most `3 × (number of
tiers)` matched emotion words (nine for the three-tier categories), not
three in total. -/
theorem C7_emotion_words_amended (cl : String) (cd : CategoryData) (ind : Indicators)
    (h : get_category_indicators cl cd = some ind) :
    ind.emotions.length ≤ 3 * cd.viewer_emotions.length := by
  have hlen : ∀ l : List (String × List String),
      ((l.map fun p => ((p.2.filter fun w => strIn w cl).take 3)).flatten).length ≤
        3 * l.length := by
    intro l
    induction l with
    | nil => simp
    | cons p t ih =>
      simp only [List.map_cons, List.flatten_cons, List.length_append, List.length_cons]
      have h1 : ((p.2.filter fun w => strIn w cl).take 3).length ≤ 3 := by
        simp
      omega
  rw [get_category_indicators] at h
  cases hg : dget cd.authenticity_signals "genuine" with
  | none => rw [hg] at h; simp at h
  | some gs =>
    cases hs : dget cd.authenticity_signals "staged_warnings" with
    | none => rw [hg, hs] at h; simp at h
    | some sw =>
      rw [hg, hs] at h
      simp only [bind, Option.bind, Option.pure_def, Option.some.injEq] at h
      subst h
      exact hlen cd.viewer_emotions

/-- Witness for the amended C7: the seven emotion words of the `cE` moment
are within the nine allowed for the three heartwarming tiers. -/
theorem C7_emotion_words_amended_witness :
    ({ content_types := [], emotions := ["crying", "sobbing", "tears", "emotional",
        "joy", "beautiful", "sweet"], authenticity := "unknown" } : Indicators).emotions.length ≤
      3 * heartwarmingCat.viewer_emotions.length :=
  C7_emotion_words_amended cE heartwarmingCat _ (by decide)

/-! ## C8: the comment-corpus separator -/

/-- `pyStartsWith` agrees with an append decomposition. -/
theorem pyStartsWith_iff : ∀ hay pre : List Char,
    pyStartsWith hay pre = true ↔ ∃ t, hay = pre ++ t := by
  intro hay pre
  induction pre generalizing hay with
  | nil =>
    rw [pyStartsWith]
    simp
  | cons p ps ih =>
    cases hay with
    | nil =>
      rw [pyStartsWith]
      simp
    | cons h hs =>
      rw [pyStartsWith]
      simp only [Bool.and_eq_true, beq_iff_eq, ih]
      constructor
      · rintro ⟨rfl, t, rfl⟩
        exact ⟨t, rfl⟩
      · rintro ⟨t, heq⟩
        injection heq with h1 h2
        exact ⟨h1, t, h2⟩

/-- `pyContains` agrees with a two-sided append decomposition. -/
theorem pyContains_iff : ∀ hay nd : List Char,
    pyContains hay nd = true ↔ ∃ s t, hay = s ++ nd ++ t := by
  intro hay nd
  induction hay with
  | nil =>
    rw [pyContains, pyStartsWith_iff]
    constructor
    · rintro ⟨t, ht⟩
      exact ⟨[], t, ht⟩
    · rintro ⟨s, t, hst⟩
      rw [List.append_assoc] at hst
      obtain ⟨hs, hnt⟩ := List.append_eq_nil.mp hst.symm
      exact ⟨t, by rw [hs] at hst; exact hst⟩
  | cons h hs ih =>
    rw [pyContains]
    simp only [Bool.or_eq_true, pyStartsWith_iff, ih]
    constructor
    · rintro (⟨t, heq⟩ | ⟨s, t, heq⟩)
      · exact ⟨[], t, by simpa using heq⟩
      · exact ⟨h :: s, t, by rw [heq]; rfl⟩
    · rintro ⟨s, t, heq⟩
      cases s with
      | nil =>
        left
        exact ⟨t, by simpa using heq⟩
      | cons s1 ss =>
        right
        injection heq with h1 h2
        exact ⟨ss, t, h2⟩

/-- A space-free word that starts a string reaching across `a ++ ' ' :: b`
must fit inside `a`. -/
theorem spacefree_take : ∀ nd a t b : List Char, (∀ c ∈ nd, c ≠ ' ') →
    nd ++ t = a ++ ' ' :: b → ∃ r, a = nd ++ r := by
  intro nd
  induction nd with
  | nil =>
    intro a t b _ _
    exact ⟨a, rfl⟩
  | cons c ncs ih =>
    intro a t b hsp heq
    cases a with
    | nil =>
      injection heq with h1 _
      exact absurd h1 (hsp c (List.mem_cons_self _ _))
    | cons a1 as =>
      injection heq with h1 h2
      obtain ⟨r, hr⟩ := ih as t b (fun x hx => hsp x (List.mem_cons_of_mem _ hx)) h2
      exact ⟨r, by simp [hr, h1]⟩

/-- A space-free word inside `a ++ ' ' :: b` lies wholly inside `a` or
wholly inside `b`. -/
theorem spacefree_split : ∀ a nd s t b : List Char, nd ≠ [] → (∀ c ∈ nd, c ≠ ' ') →
    s ++ nd ++ t = a ++ ' ' :: b →
    (∃ s' t', a = s' ++ nd ++ t') ∨ (∃ s' t', b = s' ++ nd ++ t') := by
  intro a
  induction a with
  | nil =>
    intro nd s t b hne hsp heq
    cases s with
    | nil =>
      cases nd with
      | nil => exact absurd rfl hne
      | cons c ncs =>
        injection heq with h1 _
        exact absurd h1 (hsp c (List.mem_cons_self _ _))
    | cons s1 ss =>
      injection heq with h1 h2
      exact Or.inr ⟨ss, t, h2.symm⟩
  | cons a1 as ih =>
    intro nd s t b hne hsp heq
    cases s with
    | nil =>
      obtain ⟨r, hr⟩ := spacefree_take nd (a1 :: as) t b hsp (by simpa using heq)
      exact Or.inl ⟨[], r, by simpa using hr⟩
    | cons s1 ss =>
      injection heq with h1 h2
      rcases ih nd ss t b hne hsp h2 with ⟨s', t', hst⟩ | hb
      · exact Or.inl ⟨a1 :: s', t', by rw [hst]; rfl⟩
      · exact Or.inr hb

/-- A nonempty space-free word inside a space-join lies inside one of the
joined pieces. -/
theorem joinSp_split : ∀ (cs : List (List Char)) (nd : List Char),
    nd ≠ [] → (∀ c ∈ nd, c ≠ ' ') →
    (∃ s t, joinSp cs = s ++ nd ++ t) → ∃ c ∈ cs, ∃ s t, c = s ++ nd ++ t := by
  intro cs
  induction cs with
  | nil =>
    intro nd hne hsp ⟨s, t, hst⟩
    rw [joinSp] at hst
    rw [List.append_assoc] at hst
    obtain ⟨hs, hnt⟩ := List.append_eq_nil.mp hst.symm
    obtain ⟨hn, _⟩ := List.append_eq_nil.mp hnt
    exact absurd hn hne
  | cons c rest ih =>
    intro nd hne hsp hst
    cases rest with
    | nil =>
      obtain ⟨s, t, hst⟩ := hst
      rw [joinSp] at hst
      exact ⟨c, List.mem_singleton_self c, s, t, hst⟩
    | cons c2 r2 =>
      obtain ⟨s, t, hst⟩ := hst
      rw [joinSp] at hst
      rcases spacefree_split c nd s t (joinSp (c2 :: r2)) hne hsp hst.symm with hc | hrest
      · obtain ⟨s', t', h⟩ := hc
        exact ⟨c, List.mem_cons_self _ _, s', t', h⟩
      · obtain ⟨cc, hcc, h⟩ := ih nd hne hsp (by
          obtain ⟨s', t', h⟩ := hrest
          exact ⟨s', t', h⟩)
        exact ⟨cc, List.mem_cons_of_mem _ hcc, h⟩

/-- Lowercasing commutes with the space-join (the separator is unchanged
by `Char.toLower`). -/
theorem lowerData_joinSp : ∀ cs : List (List Char),
    lowerData (joinSp cs) = joinSp (cs.map lowerData) := by
  intro cs
  induction cs with
  | nil => rfl
  | cons c rest ih =>
    cases rest with
    | nil => rfl
    | cons c2 r2 =>
      rw [joinSp, List.map_cons]
      show lowerData (c ++ ' ' :: joinSp (c2 :: r2)) = joinSp (lowerData c :: (c2 :: r2).map lowerData)
      rw [lowerData, List.map_append, List.map_cons]
      have hsp : Char.toLower ' ' = ' ' := by decide
      rw [hsp]
      have : joinSp (lowerData c :: (c2 :: r2).map lowerData) =
          lowerData c ++ ' ' :: joinSp ((c2 :: r2).map lowerData) := by
        rw [List.map_cons, joinSp]
      rw [this, ← ih]
      rfl

/-- C8 (amended): comments are joined with a single blank, so a keyword
that contains no blank can only match the joined corpus by matching inside
a single comment; multi-word phrases, however, can match across two
adjacent comments (see the counterexample). -/
theorem C8_no_spurious_match_amended (needle : String) (cs : List String)
    (hne : needle.data ≠ []) (hsp : ∀ c ∈ needle.data, c ≠ ' ')
    (h : strIn needle (pylower (join_comments cs)) = true) :
    ∃ c ∈ cs, strIn needle (pylower c) = true := by
  rw [strIn, pyContains_iff] at h
  have hdata : (pylower (join_comments cs)).data = joinSp ((cs.map String.data).map lowerData) := by
    show lowerData (joinSp (cs.map String.data)) = _
    exact lowerData_joinSp _
  rw [hdata] at h
  obtain ⟨c', hc', s, t, hsub⟩ := joinSp_split _ needle.data hne hsp h
  simp only [List.mem_map] at hc'
  obtain ⟨cd, ⟨c, hcmem, rfl⟩, rfl⟩ := hc'
  refine ⟨c, hcmem, ?_⟩
  rw [strIn, pyContains_iff]
  exact ⟨s, t, hsub⟩

/-- Counterexample to C8 as stated: the two-word heartwarming keyword
`"surprise visit"` matches the space-joined corpus of two comments neither
of which contains it. -/
theorem C8_no_spurious_match_counterexample :
    strIn "surprise visit"
      ((build_all_text { d0 with comments := ["what a surprise", "visit was great"] }).comments) = true ∧
    strIn "surprise visit" (pylower "what a surprise") = false ∧
    strIn "surprise visit" (pylower "visit was great") = false ∧
    "surprise visit" ∈ (heartwarmingCat.content_types.map Prod.snd).flatten := by
  decide

/-- Witness for the amended C8: the space-free keyword `"cry"` found in a
joined corpus is found in one of the comments themselves. -/
theorem C8_no_spurious_match_amended_witness :
    ∃ c ∈ ["crying baby"], strIn "cry" (pylower c) = true :=
  C8_no_spurious_match_amended "cry" ["crying baby"] (by decide) (by decide) (by decide)

/-! ## C9: empty-engagement scenario -/

/-- `assess_emotional_impact` never raises: the division is guarded. -/
theorem assess_emotional_impact_isSome (a : AllText) (s : Sentiment) (ct : String) :
    ∃ v, assess_emotional_impact a s ct = some v := by
  rw [assess_emotional_impact]
  by_cases ht : s.total > 0
  · have htQ : ((s.total : ℚ)) ≠ 0 := (Nat.cast_pos.mpr ht).ne'
    simp only [if_pos ht, divE, if_neg htQ, bind, Option.bind, Option.pure_def]
    exact ⟨_, rfl⟩
  · simp only [if_neg ht, bind, Option.bind, Option.pure_def]
    exact ⟨_, rfl⟩

/-- `assess_inspirational_impact_late` never raises. -/
theorem assess_inspirational_impact_late_isSome (a : AllText) (s : Sentiment) :
    ∃ v, assess_inspirational_impact_late a s = some v := by
  rw [assess_inspirational_impact_late]
  by_cases ht : s.total > 0
  · have htQ : ((s.total : ℚ)) ≠ 0 := (Nat.cast_pos.mpr ht).ne'
    simp only [if_pos ht, divE, if_neg htQ, bind, Option.bind, Option.pure_def]
    exact ⟨_, rfl⟩
  · simp only [if_neg ht, bind, Option.bind, Option.pure_def]
    exact ⟨_, rfl⟩

/-- `assess_authenticity` succeeds on the heartwarming profile (both dict
keys exist). -/
theorem assess_authenticity_isSome_hw (a : AllText) (ct : String) :
    ∃ v, assess_authenticity a heartwarmingCat ct = some v := by
  rw [assess_authenticity]
  simp only [heartwarmingCat, dget, beq_self_eq_true, if_true, String.reduceBEq,
    Bool.false_eq_true, if_false, bind, Option.bind, Option.pure_def]
  exact ⟨_, rfl⟩

/-- `assess_trauma_authenticity` succeeds on the traumatic profile. -/
theorem assess_trauma_authenticity_isSome_tr (a : AllText) :
    ∃ v, assess_trauma_authenticity a traumaticCat = some v := by
  rw [assess_trauma_authenticity]
  simp only [traumaticCat, dget, beq_self_eq_true, if_true, String.reduceBEq,
    Bool.false_eq_true, if_false, bind, Option.bind, Option.pure_def]
  exact ⟨_, rfl⟩

/-- C9: with no comments and no views, every engagement-ratio-dependent
component returns its fallback value (the transformation evidence keeps
only its title/description text bonus), no division by zero occurs, and
the complete scoring computation of every category returns a result
rather than raising. -/
theorem C9_empty_engagement_fallbacks (d : VideoData) (ct : String)
    (hc : d.comments = []) (hv : d.viewCount = 0)
    (ht : d.comment_sentiment.total = 0) :
    assess_emotional_impact (build_all_text d) d.comment_sentiment ct = some 0.3 ∧
    assess_viewer_response [] d.comment_sentiment = 0.3 ∧
    assess_trauma_impact [] d.comment_sentiment = 0.4 ∧
    (assess_transformation_evidence (build_all_text d) d = some 0.4 ∨
     assess_transformation_evidence (build_all_text d) d = some 0.7) ∧
    (comprehensive_category_analysis d "heartwarming_content").isSome = true ∧
    (comprehensive_category_analysis d "motivational_content").isSome = true ∧
    (comprehensive_category_analysis d "traumatic_events").isSome = true := by
  have hcom : (build_all_text d).comments = "" := by
    show pylower (join_comments d.comments) = ""
    rw [hc]
    decide
  have hex : ∀ key, extract_timestamped_moments d.comments key =
      extract_timestamped_moments [] key := by
    intro key
    rw [hc]
  refine ⟨?_, ?_, ?_, ?_, ?_, ?_, ?_⟩
  · rw [assess_emotional_impact, ht, hcom]
    have hm : countHits ["crying", "tears", "emotional", "touching", "beautiful",
        "moving", "powerful"] "" = 0 := by decide
    simp only [gt_iff_lt, lt_irrefl, if_false, bind, Option.bind, Option.pure_def, hm]
    norm_num
  · rw [assess_viewer_response, ht]
    norm_num
  · rw [assess_trauma_impact, ht]
    norm_num
  · rw [assess_transformation_evidence, hv]
    simp only [gt_iff_lt, lt_irrefl, if_false, bind, Option.bind, Option.pure_def]
    by_cases hhits : ((["before and after", "transformation", "changed my life",
        "different person", "journey"] : List String).filter fun w =>
        strIn w (build_all_text d).title || strIn w (build_all_text d).description).length > 0
    · right
      rw [if_pos hhits]
      norm_num
    · left
      rw [if_neg hhits]
      norm_num
  · obtain ⟨va, hva⟩ := assess_authenticity_isSome_hw (build_all_text d) "heartwarming"
    obtain ⟨ve, hve⟩ := assess_emotional_impact_isSome (build_all_text d)
      d.comment_sentiment "heartwarming"
    rw [comprehensive_category_analysis]
    simp only [dget, SPECIALIZED_CATEGORIES, beq_self_eq_true, if_true, hex, bind,
      Option.bind]
    have hext : extract_timestamped_moments [] "heartwarming_content" = some [] := by decide
    rw [hext]
    simp only [beq_self_eq_true, if_true, analyze_heartwarming_content, hva, hve, bind,
      Option.bind, Option.pure_def]
    rfl
  · obtain ⟨vi, hvi⟩ := assess_inspirational_impact_late_isSome (build_all_text d)
      d.comment_sentiment
    rw [comprehensive_category_analysis]
    simp only [dget, SPECIALIZED_CATEGORIES, beq_self_eq_true, if_true, String.reduceBEq,
      Bool.false_eq_true, if_false, hex, bind, Option.bind]
    have hext : extract_timestamped_moments [] "motivational_content" = some [] := by decide
    rw [hext]
    simp only [beq_self_eq_true, if_true, String.reduceBEq, Bool.false_eq_true, if_false,
      analyze_motivational_content, hvi, bind, Option.bind, Option.pure_def]
    rfl
  · obtain ⟨va, hva⟩ := assess_trauma_authenticity_isSome_tr (build_all_text d)
    rw [comprehensive_category_analysis]
    simp only [dget, SPECIALIZED_CATEGORIES, beq_self_eq_true, if_true, String.reduceBEq,
      Bool.false_eq_true, if_false, hex, bind, Option.bind]
    have hext : extract_timestamped_moments [] "traumatic_events" = some [] := by decide
    rw [hext]
    simp only [beq_self_eq_true, if_true, String.reduceBEq, Bool.false_eq_true, if_false,
      analyze_traumatic_content, hva, bind, Option.bind, Option.pure_def]
    rfl

/-- Witness for C9 at the all-empty record. -/
theorem C9_empty_engagement_fallbacks_witness :
    assess_emotional_impact (build_all_text d0) d0.comment_sentiment "heartwarming" = some 0.3 ∧
    assess_viewer_response [] d0.comment_sentiment = 0.3 ∧
    assess_trauma_impact [] d0.comment_sentiment = 0.4 ∧
    (assess_transformation_evidence (build_all_text d0) d0 = some 0.4 ∨
     assess_transformation_evidence (build_all_text d0) d0 = some 0.7) ∧
    (comprehensive_category_analysis d0 "heartwarming_content").isSome = true ∧
    (comprehensive_category_analysis d0 "motivational_content").isSome = true ∧
    (comprehensive_category_analysis d0 "traumatic_events").isSome = true :=
  C9_empty_engagement_fallbacks d0 "heartwarming" rfl rfl rfl

/-! ## C10: traumatic emotion tier weights -/

/-- Total keyword hits over all content types of a category. -/
def contentHitsTotal (cl : String) (cd : CategoryData) : ℕ :=
  (cd.content_types.map fun p => countHits p.2 cl).sum

/-- Total keyword hits over all viewer-emotion tiers of a category. -/
def emotionHitsTotal (cl : String) (cd : CategoryData) : ℕ :=
  (cd.viewer_emotions.map fun p => countHits p.2 cl).sum

/-- A guarded weight contribution equals the unguarded product. -/
theorem ite_hits_mul (n : ℕ) (w : ℚ) : (if n > 0 then (n : ℚ) * w else 0) = (n : ℚ) * w := by
  split_ifs with h
  · rfl
  · rw [Nat.le_zero.mp (not_lt.mp h)]
    norm_num

/-- C10: the traumatic category's emotion tiers are named shock / empathy
/ concern — never `strong` or `moderate` — so in
`calculate_moment_relevance` every traumatic viewer-emotion keyword hit
falls through to the 1.0 branch: the relevance is exactly
`2·contentHits + 1·emotionHits + 1.5·contextHits`. -/
theorem C10_traumatic_emotion_weight :
    (traumaticCat.viewer_emotions.map Prod.fst = ["shock", "empathy", "concern"]) ∧
    ∀ cl : String, calculate_moment_relevance cl traumaticCat =
      2 * (contentHitsTotal cl traumaticCat : ℚ) + (emotionHitsTotal cl traumaticCat : ℚ) +
      1.5 * (countHits ["this part", "here", "moment", "scene", "exactly", "perfect",
        "best part", "favorite"] cl : ℚ) := by
  refine ⟨by decide, fun cl => ?_⟩
  rw [calculate_moment_relevance]
  simp only [traumaticCat, contentHitsTotal, emotionHitsTotal, List.map_cons, List.map_nil,
    String.reduceBEq, Bool.false_eq_true, if_false, List.sum_cons, List.sum_nil,
    ite_hits_mul]
  push_cast
  ring

/-- Witness for C10 at the empty comment. -/
theorem C10_traumatic_emotion_weight_witness :
    calculate_moment_relevance "" traumaticCat =
      2 * (contentHitsTotal "" traumaticCat : ℚ) + (emotionHitsTotal "" traumaticCat : ℚ) +
      1.5 * (countHits ["this part", "here", "moment", "scene", "exactly", "perfect",
        "best part", "favorite"] "" : ℚ) :=
  C10_traumatic_emotion_weight.2 ""
